import Mathlib

/-!
Verification development for the `solr-docker` operational scripts.

The Python sources under `scripts/` are shallowly embedded below:

* `scripts/hash-password.py` — the credential hasher (`generate_random_salt`,
  `hash_password`, `verify_password`, `load_existing_hashes`,
  `verify_and_reuse`, `main`);
* `scripts/health-api.py` — the health aggregator's request handlers;
* `scripts/add-query-performance-dashboard.py` and
  `scripts/add-grafana-templating.py` — the dashboard mutation scripts.

Machine bytes are `Nat` values below 256; SHA-256 words are `Nat` values
reduced modulo `2 ^ 32` at each step.  Randomness (`secrets.token_bytes`) is
modelled by an explicit entropy stream `Nat → Nat` supplied to every function
that may draw a fresh salt; a byte of entropy is the stream's value reduced
modulo 256.  File access is modelled by a `ReadResult` describing the four
outcomes the script distinguishes, and parsed JSON documents by the `Json`
inductive (object keys are unique, as produced by `json.load`).
-/

/-! ## SHA-256 over byte lists (bytes and 32-bit words as `Nat`) -/

/-- Reduce a `Nat` to a 32-bit word, as every SHA-256 step does. -/
def w32 (n : Nat) : Nat := n % 4294967296

/-- Right rotation of a 32-bit word by `n` places. -/
def rotr (n x : Nat) : Nat := w32 ((x >>> n) ||| (x <<< (32 - n)))

/-- SHA-256 small sigma 0: rotations by 7 and 18, shift by 3. -/
def ssig0 (x : Nat) : Nat := (rotr 7 x) ^^^ (rotr 18 x) ^^^ (x >>> 3)

/-- SHA-256 small sigma 1: rotations by 17 and 19, shift by 10. -/
def ssig1 (x : Nat) : Nat := (rotr 17 x) ^^^ (rotr 19 x) ^^^ (x >>> 10)

/-- SHA-256 big sigma 0: rotations by 2, 13 and 22. -/
def bsig0 (x : Nat) : Nat := (rotr 2 x) ^^^ (rotr 13 x) ^^^ (rotr 22 x)

/-- SHA-256 big sigma 1: rotations by 6, 11 and 25. -/
def bsig1 (x : Nat) : Nat := (rotr 6 x) ^^^ (rotr 11 x) ^^^ (rotr 25 x)

/-- SHA-256 choice function. -/
def shaCh (x y z : Nat) : Nat := (x &&& y) ^^^ ((x ^^^ 4294967295) &&& z)

/-- SHA-256 majority function. -/
def shaMaj (x y z : Nat) : Nat := (x &&& y) ^^^ (x &&& z) ^^^ (y &&& z)

/-- The 64 SHA-256 round constants. -/
def shaK : List Nat :=
  [1116352408, 1899447441, 3049323471, 3921009573, 961987163, 1508970993,
   2453635748, 2870763221, 3624381080, 310598401, 607225278, 1426881987,
   1925078388, 2162078206, 2614888103, 3248222580, 3835390401, 4022224774,
   264347078, 604807628, 770255983, 1249150122, 1555081692, 1996064986,
   2554220882, 2821834349, 2952996808, 3210313671, 3336571891, 3584528711,
   113926993, 338241895, 666307205, 773529912, 1294757372, 1396182291,
   1695183700, 1986661051, 2177026350, 2456956037, 2730485921, 2820302411,
   3259730800, 3345764771, 3516065817, 3600352804, 4094571909, 275423344,
   430227734, 506948616, 659060556, 883997877, 958139571, 1322822218,
   1537002063, 1747873779, 1955562222, 2024104815, 2227730452, 2361852424,
   2428436474, 2756734187, 3204031479, 3329325298]

/-- The eight SHA-256 working registers. -/
structure Hash8 where
  a : Nat
  b : Nat
  c : Nat
  d : Nat
  e : Nat
  f : Nat
  g : Nat
  h : Nat
deriving Repr, DecidableEq

/-- The SHA-256 initial hash value. -/
def shaH0 : Hash8 :=
  ⟨1779033703, 3144134277, 1013904242, 2773480762,
   1359893119, 2600822924, 528734635, 1541459225⟩

/-- Big-endian bytes of a 64-bit message length. -/
def lenBytes64 (n : Nat) : List Nat :=
  [(n >>> 56) % 256, (n >>> 48) % 256, (n >>> 40) % 256, (n >>> 32) % 256,
   (n >>> 24) % 256, (n >>> 16) % 256, (n >>> 8) % 256, n % 256]

/-- SHA-256 padding: a 128 byte, zeros to 56 mod 64, then the bit length. -/
def sha256pad (msg : List Nat) : List Nat :=
  let len := msg.length
  let z := (120 - ((len + 1) % 64)) % 64
  msg ++ [128] ++ List.replicate z 0 ++ lenBytes64 (8 * len)

/-- Group bytes into big-endian 32-bit words (length is a multiple of 4 after
padding). -/
def bytesToWords : List Nat → List Nat
  | a :: b :: c :: d :: rest =>
      ((a <<< 24) ||| (b <<< 16) ||| (c <<< 8) ||| d) :: bytesToWords rest
  | _ => []

/-- Extend a 16-word block to the 64-word message schedule. -/
def msgSchedule (block : List Nat) : List Nat :=
  ((List.range 48).foldl
    (fun w _ =>
      let i := w.size - 16
      w.push (w32 (ssig1 (w.getD (i + 14) 0) + w.getD (i + 9) 0 +
                   ssig0 (w.getD (i + 1) 0) + w.getD i 0)))
    block.toArray).toList

/-- One SHA-256 compression round: update the registers with a schedule word
and a round constant. -/
def shaRound (st : Hash8) (wk : Nat × Nat) : Hash8 :=
  let t1 := w32 (st.h + bsig1 st.e + shaCh st.e st.f st.g + wk.2 + wk.1)
  let t2 := w32 (bsig0 st.a + shaMaj st.a st.b st.c)
  ⟨w32 (t1 + t2), st.a, st.b, st.c, w32 (st.d + t1), st.e, st.f, st.g⟩

/-- Compress one 16-word block into the running hash value. -/
def compressBlock (hv : Hash8) (block : List Nat) : Hash8 :=
  let st := ((msgSchedule block).zip shaK).foldl shaRound hv
  ⟨w32 (hv.a + st.a), w32 (hv.b + st.b), w32 (hv.c + st.c), w32 (hv.d + st.d),
   w32 (hv.e + st.e), w32 (hv.f + st.f), w32 (hv.g + st.g), w32 (hv.h + st.h)⟩

/-- Split a word list into 16-word blocks; `fuel` bounds the recursion and is
instantiated with the list length. -/
def wordBlocks : Nat → List Nat → List (List Nat)
  | 0, _ => []
  | _, [] => []
  | fuel + 1, w :: ws => (w :: ws).take 16 :: wordBlocks fuel ((w :: ws).drop 16)

/-- Big-endian bytes of a 32-bit word. -/
def wordToBytes (w : Nat) : List Nat :=
  [(w >>> 24) % 256, (w >>> 16) % 256, (w >>> 8) % 256, w % 256]

/-- SHA-256 of a byte list, as `hashlib.sha256(...).digest()`: pad, schedule,
compress each block, and serialize the eight registers big-endian. -/
def sha256 (msg : List Nat) : List Nat :=
  let ws := bytesToWords (sha256pad msg)
  let hv := (wordBlocks ws.length ws).foldl compressBlock shaH0
  wordToBytes hv.a ++ wordToBytes hv.b ++ wordToBytes hv.c ++ wordToBytes hv.d ++
  wordToBytes hv.e ++ wordToBytes hv.f ++ wordToBytes hv.g ++ wordToBytes hv.h

/-! ## Standard base64 with padding (`base64.b64encode` / `base64.b64decode`) -/

/-- The standard base64 alphabet. -/
def b64Alphabet : List Char :=
  "ABCDEFGHIJKLMNOPQRSTUVWXYZabcdefghijklmnopqrstuvwxyz0123456789+/".data

/-- The alphabet character for a 6-bit value. -/
def b64Char (n : Nat) : Char := b64Alphabet.getD n 'A'

/-- Base64-encode a byte list three bytes at a time, padding the final group
with `=` — the output of `base64.b64encode`. -/
def b64encodeCore : List Nat → List Char
  | [] => []
  | [a] => [b64Char (a / 4), b64Char (a % 4 * 16), '=', '=']
  | [a, b] => [b64Char (a / 4), b64Char (a % 4 * 16 + b / 16),
               b64Char (b % 16 * 4), '=']
  | a :: b :: c :: rest =>
      b64Char (a / 4) :: b64Char (a % 4 * 16 + b / 16) ::
      b64Char (b % 16 * 4 + c / 64) :: b64Char (c % 64) :: b64encodeCore rest

/-- Model of `base64.b64encode(...).decode('utf-8')`. -/
def b64encode (bs : List Nat) : String := String.mk (b64encodeCore bs)

/-- Index of a character in the base64 alphabet. -/
def b64DecChar (c : Char) : Option Nat :=
  go b64Alphabet 0
where
  go : List Char → Nat → Option Nat
    | [], _ => none
    | a :: rest, i => if c = a then some i else go rest (i + 1)

/-- Base64-decode four characters at a time, honouring `=` padding in the
final quad.  This models `base64.b64decode` on canonical padded input; the
Python decoder additionally accepts some non-canonical strings, but every
record on which `verify_password` can succeed carries the canonical encoding
produced by `b64encode`, and on the decoder's failures the script's
`except` clause and this `Option` agree on the result `False`. -/
def b64decodeQuads : List Char → Option (List Nat)
  | [] => some []
  | w :: x :: y :: z :: rest =>
      match b64DecChar w, b64DecChar x with
      | some vw, some vx =>
          if z = '=' then
            if rest = [] then
              if y = '=' then some [vw * 4 + vx / 16]
              else
                match b64DecChar y with
                | some vy => some [vw * 4 + vx / 16, vx % 16 * 16 + vy / 4]
                | none => none
            else none
          else
            match b64DecChar y, b64DecChar z with
            | some vy, some vz =>
                (b64decodeQuads rest).map
                  (fun bs => (vw * 4 + vx / 16) :: (vx % 16 * 16 + vy / 4) ::
                             (vy % 4 * 64 + vz) :: bs)
            | _, _ => none
      | _, _ => none
  | _ => none

/-- Model of `base64.b64decode` on a string, `none` when the library raises. -/
def b64decode (s : String) : Option (List Nat) := b64decodeQuads s.data

/-! ## Python string operations used by the scripts -/

/-- The ASCII whitespace characters `str.strip` removes (the Unicode ones it
also strips never occur in a hash record). -/
def isPySpace (c : Char) : Bool :=
  c = ' ' || c = '\t' || c = '\n' || c = '\x0d' || c = '\x0b' || c = '\x0c'

/-- Strip leading and trailing whitespace from a character list. -/
def stripList (cs : List Char) : List Char :=
  (((cs.dropWhile isPySpace).reverse.dropWhile isPySpace)).reverse

/-- Python `str.strip()`. -/
def pyStrip (s : String) : String := String.mk (stripList s.data)

/-- Split a character list at every single space, as `str.split(' ')` does:
consecutive spaces yield empty fields, and the empty input yields one empty
field. -/
def splitSpaceList : List Char → List (List Char)
  | [] => [[]]
  | c :: rest =>
      if c = ' ' then [] :: splitSpaceList rest
      else
        match splitSpaceList rest with
        | [] => [[c]]
        | g :: gs => (c :: g) :: gs

/-- Python `s.split(' ')`. -/
def pySplitSpace (s : String) : List String :=
  (splitSpaceList s.data).map String.mk

/-- UTF-8 encoding of one scalar value, as `str.encode('utf-8')` produces. -/
def utf8Char (c : Char) : List Nat :=
  let n := c.toNat
  if n < 128 then [n]
  else if n < 2048 then [192 + n / 64, 128 + n % 64]
  else if n < 65536 then [224 + n / 4096, 128 + n / 64 % 64, 128 + n % 64]
  else [240 + n / 262144, 128 + n / 4096 % 64, 128 + n / 64 % 64, 128 + n % 64]

/-- Python `password.encode('utf-8')` as a byte list. -/
def utf8Encode (s : String) : List Nat := s.data.flatMap utf8Char

/-! ## Parsed JSON documents and the Python exceptions the scripts can leak -/

/-- A parsed JSON document as `json.load` returns it.  Numbers are modelled
as integers (every number these scripts read or write is integral); object
keys are unique and kept in insertion order, matching a Python `dict`. -/
inductive Json where
  | null : Json
  | bool : Bool → Json
  | num : Int → Json
  | str : String → Json
  | arr : List Json → Json
  | obj : List (String × Json) → Json

/-- The exceptions the embedded code can raise past its `except` clauses. -/
inductive PyError where
  | attributeError : PyError
  | keyError : PyError
  | typeError : PyError
deriving Repr, DecidableEq

/-- Look a key up in an object's field list. -/
def lookupField : List (String × Json) → String → Option Json
  | [], _ => none
  | (k1, v) :: rest, k => if k = k1 then some v else lookupField rest k

/-- Python `d.get(k)`: `None` for a missing key, `AttributeError` when the
receiver is not a dict. -/
def pyGetOpt (j : Json) (k : String) : Except PyError (Option Json) :=
  match j with
  | .obj fs => .ok (lookupField fs k)
  | _ => .error .attributeError

/-- Python `d.get(k, default)`. -/
def pyGetD (j : Json) (k : String) (dflt : Json) : Except PyError Json :=
  match j with
  | .obj fs => .ok ((lookupField fs k).getD dflt)
  | _ => .error .attributeError

/-- Python `d[k]` on a dict: `KeyError` when missing, `TypeError` when the
receiver is not a dict. -/
def pyIndex (j : Json) (k : String) : Except PyError Json :=
  match j with
  | .obj fs =>
      match lookupField fs k with
      | some v => .ok v
      | none => .error .keyError
  | _ => .error .typeError

/-- Update a field list, replacing an existing key in place or appending a
new one, as assignment to a Python dict key does. -/
def setFields : List (String × Json) → String → Json → List (String × Json)
  | [], k, v => [(k, v)]
  | (k1, v1) :: rest, k, v =>
      if k = k1 then (k, v) :: rest else (k1, v1) :: setFields rest k v

/-- Python `d[k] = v` on a receiver known to be a dict. -/
def setKey (j : Json) (k : String) (v : Json) : Json :=
  match j with
  | .obj fs => .obj (setFields fs k v)
  | other => other

/-- Python `d[k] = v`, raising `TypeError` when the receiver is not a dict. -/
def pySetItem (j : Json) (k : String) (v : Json) : Except PyError Json :=
  match j with
  | .obj fs => .ok (.obj (setFields fs k v))
  | _ => .error .typeError

/-- Python `d[k].append(x)`: `KeyError` when the key is missing, and the
`AttributeError` of `.append` when the value is not a list. -/
def pyAppendKey (j : Json) (k : String) (v : Json) : Except PyError Json :=
  match j with
  | .obj fs =>
      match lookupField fs k with
      | some (.arr l) => .ok (.obj (setFields fs k (.arr (l ++ [v]))))
      | some _ => .error .attributeError
      | none => .error .keyError
  | _ => .error .typeError

/-- Python truthiness of a JSON value. -/
def pyTruthy : Json → Bool
  | .null => false
  | .bool b => b
  | .num n => decide (n ≠ 0)
  | .str s => decide (s ≠ "")
  | .arr [] => false
  | .arr (_ :: _) => true
  | .obj [] => false
  | .obj (_ :: _) => true

/-- Look a key up when the receiver is an object, `none` otherwise. -/
def lookupOf (j : Json) (k : String) : Option Json :=
  match j with
  | .obj fs => lookupField fs k
  | _ => none

/-! ## `scripts/hash-password.py` -/

/-- Model of `generate_random_salt`: `secrets.token_bytes(length)`, modelled as the
next `length` bytes of the entropy stream. -/
def generate_random_salt (entropy : Nat → Nat) (length : Nat) : List Nat :=
  (List.range length).map (fun i => entropy i % 256)

/-- Model of `hash_password`: double SHA-256 over `salt ++ utf8(password)`, formatted
as `"<base64 digest> <base64 salt>"`; with no salt supplied, 32 fresh
entropy bytes are drawn. -/
def hash_password (entropy : Nat → Nat) (password : String)
    (salt : Option (List Nat)) : String :=
  let saltBytes := match salt with
    | none => generate_random_salt entropy 32
    | some s => s
  let password_bytes := utf8Encode password
  let combined := saltBytes ++ password_bytes
  let hash1 := sha256 combined
  let hash2 := sha256 hash1
  let hash_b64 := b64encode hash2
  let salt_b64 := b64encode saltBytes
  hash_b64 ++ " " ++ salt_b64

/-- Model of `verify_password`: strip and split the record on single spaces into
exactly two tokens, base64-decode the salt token, recompute the record with
that salt, and compare full strings; every failure path of the `try` block
returns `False`. -/
def verify_password (entropy : Nat → Nat) (password existing_hash : String) :
    Bool :=
  match pySplitSpace (pyStrip existing_hash) with
  | [_hash_b64, salt_b64] =>
      match b64decode salt_b64 with
      | some salt => decide (hash_password entropy password (some salt) = existing_hash)
      | none => false
  | _ => false

/-- One read of the credential store, by outcome: the file is absent, opening
or reading it raises `IOError`, `json.load` raises `JSONDecodeError`, or a
document parses. -/
inductive ReadResult where
  | absent : ReadResult
  | unreadable : ReadResult
  | invalidJson : ReadResult
  | parsed : Json → ReadResult

/-- Model of `load_existing_hashes`: an empty dict for an absent, unreadable or
non-JSON file, and otherwise
`security_data.get('authentication', {}).get('credentials', {})` — whose
`AttributeError` on a non-dict receiver is not among the exceptions the
`except` clause catches and so escapes to the caller. -/
def load_existing_hashes (file : ReadResult) : Except PyError Json :=
  match file with
  | .absent => .ok (.obj [])
  | .unreadable => .ok (.obj [])
  | .invalidJson => .ok (.obj [])
  | .parsed security_data =>
      match pyGetD security_data "authentication" (.obj []) with
      | .error e => .error e
      | .ok auth => pyGetD auth "credentials" (.obj [])

/-- Model of `verify_and_reuse`: return the stored record when it exists and still
verifies, and a fresh `hash_password(password)` record otherwise.  A stored
value that is not a string is never returned: if falsy the guard
short-circuits, and if truthy `verify_password`'s internal `.strip()` raises
`AttributeError`, which its own `except` turns into `False` — either way the
fresh branch runs. -/
def verify_and_reuse (entropy : Nat → Nat) (username password : String)
    (file : ReadResult) : Except PyError String :=
  match load_existing_hashes file with
  | .error e => .error e
  | .ok existing_hashes =>
      match pyGetOpt existing_hashes username with
      | .error e => .error e
      | .ok existing_hash =>
          match existing_hash with
          | some (.str s) =>
              if pyTruthy (.str s) && verify_password entropy password s
              then .ok s
              else .ok (hash_password entropy password none)
          | _ => .ok (hash_password entropy password none)

/-- The parsed command line: `--verify` and `--reuse` tuples, the positional
password, and the parsed-but-unused `--salt-bytes` value. -/
structure Args where
  password : Option String
  verifyArgs : Option (String × String)
  reuseArgs : Option (String × String × ReadResult)
  salt_bytes : Int

/-- Replace the `--salt-bytes` value of a parsed command line. -/
def setSaltBytes (a : Args) (n : Int) : Args :=
  ⟨a.password, a.verifyArgs, a.reuseArgs, n⟩

/-- The script's `main`, renamed because Lean reserves `main` for entry
points: dispatch on `--verify`, `--reuse`, the positional password and
the no-argument usage case, returning the lines printed and the exit code.
A supplied-but-empty positional password is falsy and falls through to the
usage branch, exactly as `elif args.password:` does. -/
def script_main (entropy : Nat → Nat) (args : Args) :
    Except PyError (List String × Nat) :=
  match args.verifyArgs with
  | some (password, expected_hash) =>
      if verify_password entropy password expected_hash
      then .ok (["✓ Password matches hash"], 0)
      else .ok (["✗ Password does NOT match hash"], 1)
  | none =>
  match args.reuseArgs with
  | some (username, password, security_json) =>
      match verify_and_reuse entropy username password security_json with
      | .ok h => .ok ([h], 0)
      | .error e => .error e
  | none =>
  match args.password with
  | some pw =>
      if pw ≠ "" then .ok ([hash_password entropy pw none], 0)
      else .ok (["<usage>"], 1)
  | none => .ok (["<usage>"], 1)

/-! ## `scripts/health-api.py` -/

/-- Printable message of an escaped exception, as `str(e)` renders it inside
the handlers' `except` clauses (the wording is immaterial to every checked
property). -/
def pyErrMsg : PyError → String
  | .attributeError => "AttributeError"
  | .keyError => "KeyError"
  | .typeError => "TypeError"

/-- Outcome of one authenticated upstream fetch plus `json.loads`: a parsed
document, a `URLError`, or any other exception. -/
inductive SolrFetch where
  | ok : Json → SolrFetch
  | urlError : String → SolrFetch
  | exn : String → SolrFetch

/-- The field reads `check_solr` performs on a parsed ping response; an
`AttributeError` from a non-dict document lands in the handler's generic
`except` clause. -/
def checkSolrFields (data : Json) : Except PyError (Json × Json) :=
  match pyGetOpt data "status" with
  | .error e => .error e
  | .ok st =>
      match pyGetD data "responseHeader" (.obj []) with
      | .error e => .error e
      | .ok rh =>
          match pyGetD rh "QTime" (.num 0) with
          | .error e => .error e
          | .ok qt => .ok ((st.getD .null), qt)

/-- Model of `check_solr`: an `{available, status, response_time_ms}` object on
success and an `{available: false, error}` object on any failure. -/
def check_solr (f : SolrFetch) : Json :=
  match f with
  | .urlError e => .obj [("available", .bool false), ("error", .str e)]
  | .exn e =>
      .obj [("available", .bool false),
            ("error", .str ("Unexpected error: " ++ e))]
  | .ok data =>
      match checkSolrFields data with
      | .ok (st, qt) =>
          .obj [("available", .bool true), ("status", st),
                ("response_time_ms", qt)]
      | .error e =>
          .obj [("available", .bool false),
                ("error", .str ("Unexpected error: " ++ pyErrMsg e))]

/-- Outcome of one of the two secondary fetches (`get_cores`,
`get_system_info`), modelled at the level `handle_health` consumes it: the
derived document the body builds from the upstream response (its
floating-point rounding is opaque to every checked property), or the message
of a caught exception. -/
inductive SubFetch where
  | ok : Json → SubFetch
  | exn : String → SubFetch

/-- Model of `get_cores`: the derived core list, or `[{"error": str(e)}]`. -/
def get_cores (f : SubFetch) : Json :=
  match f with
  | .ok j => j
  | .exn e => .arr [.obj [("error", .str e)]]

/-- Model of `get_system_info`: the derived system object, or `{"error": str(e)}`. -/
def get_system_info (f : SubFetch) : Json :=
  match f with
  | .ok j => j
  | .exn e => .obj [("error", .str e)]

/-- Model of `handle_ping`: always HTTP 200 with the static body. -/
def handle_ping : Nat × Json := (200, .obj [("status", .str "ok")])

/-- Model of `handle_health`: build the health document, mark it `healthy` and attach
cores and system information when the Solr ping reports available, mark it
`unhealthy` with an error entry otherwise, and send it with HTTP 200 exactly
when the status field reads `healthy` and 503 otherwise.  All receivers of
the in-place updates are the handler's own literal dict, so the total
`setKey` applies; nothing in the body can reach the outer `except` clause. -/
def handle_health (customer : String) (solrF : SolrFetch)
    (coresF sysF : SubFetch) : Nat × Json :=
  let health_data : Json :=
    .obj [("customer", .str customer), ("version", .str "2.2.0"),
          ("status", .str "unknown"), ("solr", .obj []), ("cores", .arr []),
          ("system", .obj []), ("errors", .arr [])]
  let solr_health := check_solr solrF
  let health_data := setKey health_data "solr" solr_health
  let available :=
    match lookupOf solr_health "available" with
    | some v => pyTruthy v
    | none => false
  let health_data :=
    if available then
      let hd := setKey health_data "status" (.str "healthy")
      let hd := setKey hd "cores" (get_cores coresF)
      setKey hd "system" (get_system_info sysF)
    else
      let hd := setKey health_data "status" (.str "unhealthy")
      match pyAppendKey hd "errors" (.str "Solr is not available") with
      | .ok hd2 => hd2
      | .error _ => hd
  let status_code :=
    match lookupOf health_data "status" with
    | some (.str s) => if s = "healthy" then 200 else 503
    | _ => 503
  (status_code, health_data)

/-! ## `scripts/add-query-performance-dashboard.py` -/

/-- The `query_row` literal, at the computed id and vertical position. -/
def query_row_panel (next_id next_y : Int) : Json :=
  .obj [("collapsed", .bool false),
        ("gridPos", .obj [("h", .num 1), ("w", .num 24), ("x", .num 0),
                          ("y", .num next_y)]),
        ("id", .num next_id),
        ("panels", .arr []),
        ("title", .str "Query Performance Analysis"),
        ("type", .str "row")]

/-- The `panel_latency` literal, at the computed id and vertical position. -/
def panel_latency_json (next_id next_y : Int) : Json :=
  .obj [("id", .num next_id),
        ("gridPos", .obj [("h", .num 8), ("w", .num 12), ("x", .num 0),
                          ("y", .num next_y)]),
        ("type", .str "graph"),
        ("title", .str "Query Latency Percentiles"),
        ("description", .str "Query response time distribution (p50, p95, p99)"),
        ("targets", .arr
          [.obj [("expr", .str "histogram_quantile(0.50, rate(solr_metrics_core_query_time_bucket\x7bcore=~\"$core\",instance=~\"$instance\"\x7d[5m]))"),
                 ("legendFormat", .str "p50 (median)"),
                 ("refId", .str "A")],
           .obj [("expr", .str "histogram_quantile(0.95, rate(solr_metrics_core_query_time_bucket\x7bcore=~\"$core\",instance=~\"$instance\"\x7d[5m]))"),
                 ("legendFormat", .str "p95"),
                 ("refId", .str "B")],
           .obj [("expr", .str "histogram_quantile(0.99, rate(solr_metrics_core_query_time_bucket\x7bcore=~\"$core\",instance=~\"$instance\"\x7d[5m]))"),
                 ("legendFormat", .str "p99"),
                 ("refId", .str "C")]]),
        ("yaxes", .arr [.obj [("format", .str "ms"), ("label", .str "Latency")],
                        .obj [("format", .str "short")]]),
        ("xaxis", .obj [("mode", .str "time"), ("show", .bool true)]),
        ("lines", .bool true),
        ("fill", .num 0),
        ("linewidth", .num 2),
        ("pointradius", .num 2),
        ("points", .bool false),
        ("bars", .bool false),
        ("stack", .bool false),
        ("percentage", .bool false),
        ("legend", .obj [("show", .bool true), ("values", .bool true),
                         ("current", .bool true), ("max", .bool true),
                         ("alignAsTable", .bool true)]),
        ("nullPointMode", .str "null"),
        ("tooltip", .obj [("shared", .bool true), ("sort", .num 0),
                          ("value_type", .str "individual")]),
        ("thresholds", .arr
          [.obj [("value", .num 100), ("colorMode", .str "critical"),
                 ("op", .str "gt"), ("fill", .bool true), ("line", .bool true)],
           .obj [("value", .num 500), ("colorMode", .str "custom"),
                 ("op", .str "gt"), ("fill", .bool true), ("line", .bool true),
                 ("fillColor", .str "rgba(234, 112, 112, 0.2)"),
                 ("lineColor", .str "rgb(234, 112, 112)")]])]

/-- The `panel_slow` literal, at the computed id and vertical position. -/
def panel_slow_json (next_id next_y : Int) : Json :=
  .obj [("id", .num next_id),
        ("gridPos", .obj [("h", .num 8), ("w", .num 12), ("x", .num 12),
                          ("y", .num next_y)]),
        ("type", .str "graph"),
        ("title", .str "Slow Queries (>1s)"),
        ("description", .str "Number of queries taking longer than 1 second"),
        ("targets", .arr
          [.obj [("expr", .str "sum(rate(solr_metrics_core_query_time_bucket\x7bcore=~\"$core\",instance=~\"$instance\",le=\"1000\"\x7d[5m])) by (core)"),
                 ("legendFormat", .str "\x7b\x7bcore\x7d\x7d - queries >1s"),
                 ("refId", .str "A")]]),
        ("yaxes", .arr [.obj [("format", .str "reqps"), ("label", .str "Queries/sec")],
                        .obj [("format", .str "short")]]),
        ("xaxis", .obj [("mode", .str "time"), ("show", .bool true)]),
        ("lines", .bool true),
        ("fill", .num 2),
        ("linewidth", .num 2),
        ("pointradius", .num 2),
        ("points", .bool false),
        ("bars", .bool false),
        ("stack", .bool false),
        ("percentage", .bool false),
        ("legend", .obj [("show", .bool true), ("values", .bool true),
                         ("current", .bool true), ("total", .bool true),
                         ("alignAsTable", .bool true)]),
        ("nullPointMode", .str "null"),
        ("tooltip", .obj [("shared", .bool true), ("sort", .num 2),
                          ("value_type", .str "individual")]),
        ("alert", .obj
          [("name", .str "High Slow Query Rate"),
           ("conditions", .arr
             [.obj [("evaluator", .obj [("params", .arr [.num 10]),
                                        ("type", .str "gt")]),
                    ("operator", .obj [("type", .str "and")]),
                    ("query", .obj [("params", .arr [.str "A", .str "5m",
                                                     .str "now"])]),
                    ("reducer", .obj [("params", .arr []),
                                      ("type", .str "avg")]),
                    ("type", .str "query")]]),
           ("executionErrorState", .str "alerting"),
           ("frequency", .str "1m"),
           ("handler", .num 1),
           ("message", .str "Slow query rate is high"),
           ("noDataState", .str "no_data"),
           ("notifications", .arr [])])]

/-- The `panel_rate` literal, at the computed id and vertical position. -/
def panel_rate_json (next_id next_y : Int) : Json :=
  .obj [("id", .num next_id),
        ("gridPos", .obj [("h", .num 8), ("w", .num 12), ("x", .num 0),
                          ("y", .num next_y)]),
        ("type", .str "graph"),
        ("title", .str "Query Rate by Handler"),
        ("description", .str "Queries per second by request handler"),
        ("targets", .arr
          [.obj [("expr", .str "sum(rate(solr_metrics_core_query_requests_total\x7bcore=~\"$core\",instance=~\"$instance\"\x7d[5m])) by (handler)"),
                 ("legendFormat", .str "\x7b\x7bhandler\x7d\x7d"),
                 ("refId", .str "A")]]),
        ("yaxes", .arr [.obj [("format", .str "reqps"), ("label", .str "Queries/sec")],
                        .obj [("format", .str "short")]]),
        ("xaxis", .obj [("mode", .str "time"), ("show", .bool true)]),
        ("lines", .bool true),
        ("fill", .num 1),
        ("linewidth", .num 2),
        ("pointradius", .num 2),
        ("points", .bool false),
        ("bars", .bool false),
        ("stack", .bool true),
        ("percentage", .bool false),
        ("legend", .obj [("show", .bool true), ("values", .bool true),
                         ("current", .bool true), ("total", .bool true),
                         ("alignAsTable", .bool true)]),
        ("nullPointMode", .str "null as zero"),
        ("tooltip", .obj [("shared", .bool true), ("sort", .num 2),
                          ("value_type", .str "individual")])]

/-- The `panel_cache` literal, at the computed id and vertical position. -/
def panel_cache_json (next_id next_y : Int) : Json :=
  .obj [("id", .num next_id),
        ("gridPos", .obj [("h", .num 8), ("w", .num 12), ("x", .num 12),
                          ("y", .num next_y)]),
        ("type", .str "stat"),
        ("title", .str "Query Cache Hit Ratio"),
        ("description", .str "Percentage of queries served from cache"),
        ("targets", .arr
          [.obj [("expr", .str "100 * (rate(solr_metrics_core_query_result_cache_hits_total\x7bcore=~\"$core\",instance=~\"$instance\"\x7d[5m]) / (rate(solr_metrics_core_query_result_cache_hits_total\x7bcore=~\"$core\",instance=~\"$instance\"\x7d[5m]) + rate(solr_metrics_core_query_result_cache_misses_total\x7bcore=~\"$core\",instance=~\"$instance\"\x7d[5m])))"),
                 ("legendFormat", .str "\x7b\x7bcore\x7d\x7d"),
                 ("refId", .str "A")]]),
        ("options", .obj
          [("reduceOptions", .obj [("values", .bool false),
                                   ("calcs", .arr [.str "lastNotNull"]),
                                   ("fields", .str "")]),
           ("orientation", .str "auto"),
           ("textMode", .str "value_and_name"),
           ("colorMode", .str "value"),
           ("graphMode", .str "area"),
           ("justifyMode", .str "auto")]),
        ("fieldConfig", .obj
          [("defaults", .obj
            [("unit", .str "percent"),
             ("decimals", .num 1),
             ("min", .num 0),
             ("max", .num 100),
             ("thresholds", .obj
               [("mode", .str "absolute"),
                ("steps", .arr
                  [.obj [("value", .num 0), ("color", .str "red")],
                   .obj [("value", .num 50), ("color", .str "yellow")],
                   .obj [("value", .num 80), ("color", .str "green")]])])])])]

/-- The `panel_trend` literal, at the computed id and vertical position. -/
def panel_trend_json (next_id next_y : Int) : Json :=
  .obj [("id", .num next_id),
        ("gridPos", .obj [("h", .num 8), ("w", .num 24), ("x", .num 0),
                          ("y", .num next_y)]),
        ("type", .str "graph"),
        ("title", .str "Average Query Time Trend"),
        ("description", .str "Average query execution time over time by core"),
        ("targets", .arr
          [.obj [("expr", .str "rate(solr_metrics_core_query_time_sum\x7bcore=~\"$core\",instance=~\"$instance\"\x7d[5m]) / rate(solr_metrics_core_query_requests_total\x7bcore=~\"$core\",instance=~\"$instance\"\x7d[5m])"),
                 ("legendFormat", .str "\x7b\x7bcore\x7d\x7d"),
                 ("refId", .str "A")]]),
        ("yaxes", .arr [.obj [("format", .str "ms"), ("label", .str "Avg Time")],
                        .obj [("format", .str "short")]]),
        ("xaxis", .obj [("mode", .str "time"), ("show", .bool true)]),
        ("lines", .bool true),
        ("fill", .num 0),
        ("linewidth", .num 2),
        ("pointradius", .num 2),
        ("points", .bool false),
        ("bars", .bool false),
        ("stack", .bool false),
        ("percentage", .bool false),
        ("legend", .obj [("show", .bool true), ("values", .bool true),
                         ("current", .bool true), ("avg", .bool true),
                         ("max", .bool true), ("alignAsTable", .bool true)]),
        ("nullPointMode", .str "null"),
        ("tooltip", .obj [("shared", .bool true), ("sort", .num 0),
                          ("value_type", .str "individual")]),
        ("thresholds", .arr
          [.obj [("value", .num 50), ("colorMode", .str "custom"),
                 ("op", .str "gt"), ("fill", .bool false), ("line", .bool true),
                 ("lineColor", .str "rgba(245, 150, 40, 0.8)")],
           .obj [("value", .num 100), ("colorMode", .str "custom"),
                 ("op", .str "gt"), ("fill", .bool false), ("line", .bool true),
                 ("lineColor", .str "rgba(234, 112, 112, 0.8)")]])]

/-- One element of `[p.get("id", 0) for p in existing_panels]`; a non-dict
panel raises `AttributeError`, a non-numeric id makes the subsequent
`max(...) + 1` raise `TypeError` (modelled at the read). -/
def panelIdVal (p : Json) : Except PyError Int :=
  match pyGetD p "id" (.num 0) with
  | .error e => .error e
  | .ok (.num n) => .ok n
  | .ok _ => .error .typeError

/-- One element of the `next_y` comprehension:
`p.get("gridPos", {}).get("y", 0) + p.get("gridPos", {}).get("h", 0)`,
with the same error conventions as `panelIdVal`. -/
def panelYH (p : Json) : Except PyError Int :=
  match pyGetD p "gridPos" (.obj []) with
  | .error e => .error e
  | .ok gp =>
      match pyGetD gp "y" (.num 0) with
      | .error e => .error e
      | .ok (.num y) =>
          match pyGetD gp "h" (.num 0) with
          | .error e => .error e
          | .ok (.num h) => .ok (y + h)
          | .ok _ => .error .typeError
      | .ok _ => .error .typeError

/-- Python `max(values, default=d)`: the default only applies to an empty
sequence. -/
def pyMax (l : List Int) (dflt : Int) : Int :=
  match l with
  | [] => dflt
  | x :: xs => xs.foldl max x

/-- The six successive `dashboard["panels"].append(...)` calls of
`add_query_performance_panels`, at consecutive panel ids.  The appends index
`dashboard["panels"]` directly, so a document without that key raises
`KeyError` even though the earlier `.get` supplied a default. -/
def appendSixPanels (dashboard : Json) (next_id next_y : Int) :
    Except PyError Json :=
  match pyAppendKey dashboard "panels" (query_row_panel next_id next_y) with
  | .error e => .error e
  | .ok d1 =>
  match pyAppendKey d1 "panels" (panel_latency_json (next_id + 1) (next_y + 1)) with
  | .error e => .error e
  | .ok d2 =>
  match pyAppendKey d2 "panels" (panel_slow_json (next_id + 2) (next_y + 1)) with
  | .error e => .error e
  | .ok d3 =>
  match pyAppendKey d3 "panels" (panel_rate_json (next_id + 3) (next_y + 9)) with
  | .error e => .error e
  | .ok d4 =>
  match pyAppendKey d4 "panels" (panel_cache_json (next_id + 4) (next_y + 9)) with
  | .error e => .error e
  | .ok d5 =>
  pyAppendKey d5 "panels" (panel_trend_json (next_id + 5) (next_y + 17))

/-- Final metadata update of the panel script: bump `version`, set
`refresh`. -/
def bumpVersionRefresh (d : Json) : Except PyError Json :=
  match pyGetD d "version" (.num 0) with
  | .error e => .error e
  | .ok (.num n) =>
      match pySetItem d "version" (.num (n + 1)) with
      | .error e => .error e
      | .ok d2 => pySetItem d2 "refresh" (.str "30s")
  | .ok _ => .error .typeError

/-- Model of `add_query_performance_panels`: compute `next_id` as one past the
largest existing panel id and `next_y` as the bottom of the existing layout,
append the six new panels at consecutive ids, then bump `version` and set
`refresh`. -/
def add_query_performance_panels (dashboard : Json) : Except PyError Json :=
  match pyGetD dashboard "panels" (.arr []) with
  | .error e => .error e
  | .ok existing_panels =>
  match existing_panels with
  | .arr panelList =>
      match panelList.mapM panelIdVal with
      | .error e => .error e
      | .ok ids =>
      match panelList.mapM panelYH with
      | .error e => .error e
      | .ok ys =>
          match appendSixPanels dashboard (pyMax ids 0 + 1) (pyMax ys 0) with
          | .error e => .error e
          | .ok d => bumpVersionRefresh d
  | _ => .error .typeError

/-! ## `scripts/add-grafana-templating.py` (module body, minus file I/O) -/

/-- Whether `pat` occurs as a contiguous run of `cs`. -/
def infixAux (pat : List Char) : List Char → Bool
  | [] => pat.isPrefixOf []
  | c :: rest => pat.isPrefixOf (c :: rest) || infixAux pat rest

/-- Python `sub in s` on strings. -/
def pyIn (sub s : String) : Bool := infixAux sub.data s.data

/-- Replace non-overlapping occurrences left to right, as `str.replace`
does; `fuel` bounds the scan and is instantiated with the string length. -/
def replaceAux (pat rep : List Char) : Nat → List Char → List Char
  | 0, cs => cs
  | _ + 1, [] => []
  | fuel + 1, c :: rest =>
      if pat.isPrefixOf (c :: rest) then
        rep ++ replaceAux pat rep fuel ((c :: rest).drop pat.length)
      else c :: replaceAux pat rep fuel rest

/-- Python `s.replace(pat, rep)` for a non-empty pattern. -/
def pyReplace (s pat rep : String) : String :=
  String.mk (replaceAux pat.data rep.data s.data.length s.data)

/-- Python `re.sub(r'core="[^\x22]*"', 'core=~"$core"', expr)`.  The guard
`'core=' not in expr and 'core="' in expr` in front of the only call is
unsatisfiable, so this branch is dead code in the source; the replacement is
modelled all the same. -/
def reSubAux : Nat → List Char → List Char
  | 0, cs => cs
  | _ + 1, [] => []
  | fuel + 1, c :: rest =>
      if ("core=\"".data).isPrefixOf (c :: rest) then
        let after := ((c :: rest).drop 6).dropWhile (fun ch => ch ≠ '"')
        ("core=~\"$core\"".data) ++ reSubAux fuel (after.drop 1)
      else c :: reSubAux fuel rest

/-- The dead `re.sub` rewrite of a hardcoded core filter. -/
def reSubCoreLiteral (s : String) : String :=
  String.mk (reSubAux s.data.length s.data)

/-- Python `k in j`: key membership for a dict, element equality for a list
(a string key can only equal string elements), substring test for a string,
`TypeError` otherwise. -/
def pyContains (j : Json) (k : String) : Except PyError Bool :=
  match j with
  | .obj fs => .ok (lookupField fs k).isSome
  | .arr l => .ok (l.any fun x => match x with
      | .str s => decide (s = k)
      | _ => false)
  | .str s => .ok (pyIn k s)
  | _ => .error .typeError

/-- The `templating` value the script assigns wholesale. -/
def templatingValue : Json :=
  .obj [("list", .arr
    [.obj [("current", .obj [("selected", .bool false), ("text", .str "All"),
                             ("value", .str "$__all")]),
           ("datasource", .str "Prometheus"),
           ("definition", .str "label_values(up\x7bjob=\"solr-exporter\"\x7d, instance)"),
           ("hide", .num 0),
           ("includeAll", .bool true),
           ("label", .str "Instance"),
           ("multi", .bool true),
           ("name", .str "instance"),
           ("options", .arr []),
           ("query", .obj [("query", .str "label_values(up\x7bjob=\"solr-exporter\"\x7d, instance)"),
                           ("refId", .str "StandardVariableQuery")]),
           ("refresh", .num 1),
           ("regex", .str ""),
           ("skipUrlSync", .bool false),
           ("sort", .num 1),
           ("type", .str "query")],
     .obj [("current", .obj [("selected", .bool false),
                             ("text", .str "solr-exporter"),
                             ("value", .str "solr-exporter")]),
           ("datasource", .str "Prometheus"),
           ("definition", .str "label_values(up, job)"),
           ("hide", .num 0),
           ("includeAll", .bool false),
           ("label", .str "Job"),
           ("multi", .bool false),
           ("name", .str "job"),
           ("options", .arr []),
           ("query", .obj [("query", .str "label_values(up, job)"),
                           ("refId", .str "StandardVariableQuery")]),
           ("refresh", .num 1),
           ("regex", .str ".*solr.*"),
           ("skipUrlSync", .bool false),
           ("sort", .num 0),
           ("type", .str "query")],
     .obj [("allValue", .str ""),
           ("current", .obj [("selected", .bool false), ("text", .str "All"),
                             ("value", .str "$__all")]),
           ("datasource", .str "Prometheus"),
           ("definition", .str "label_values(solr_metrics_core_query_requests_total, core)"),
           ("hide", .num 0),
           ("includeAll", .bool true),
           ("label", .str "Core"),
           ("multi", .bool true),
           ("name", .str "core"),
           ("options", .arr []),
           ("query", .obj [("query", .str "label_values(solr_metrics_core_query_requests_total, core)"),
                           ("refId", .str "StandardVariableQuery")]),
           ("refresh", .num 1),
           ("regex", .str ""),
           ("skipUrlSync", .bool false),
           ("sort", .num 1),
           ("type", .str "query")]])]

/-- The per-expression rewrite of the templating loop body: swap the
hardcoded job filter for template variables, then add a core filter where
applicable. -/
def update_expr (expr0 : String) : String :=
  let expr :=
    if ¬ pyIn "instance=" expr0 && pyIn "job=\"solr-exporter\"" expr0 then
      pyReplace expr0 "job=\"solr-exporter\"" "job=\"$job\",instance=~\"$instance\""
    else if pyIn "job=\"solr-exporter\"" expr0 then
      pyReplace expr0 "job=\"solr-exporter\"" "job=\"$job\""
    else expr0
  if ¬ pyIn "core=" expr && pyIn "solr_metrics_core" expr then
    if pyIn "core=\"" expr then reSubCoreLiteral expr
    else if pyIn "\x7d" expr then
      pyReplace expr "\x7d" ",core=~\"$core\"\x7d"
    else expr
  else expr

/-- The inner loop body: rewrite `target['expr']` when present.  An `'expr'`
value that is not a string makes the `in` tests raise `TypeError`. -/
def update_target (target : Json) : Except PyError Json :=
  match pyContains target "expr" with
  | .error e => .error e
  | .ok false => .ok target
  | .ok true =>
      match pyIndex target "expr" with
      | .error e => .error e
      | .ok (.str expr) => pySetItem target "expr" (.str (update_expr expr))
      | .ok _ => .error .typeError

/-- The outer loop body: rewrite each target of a panel carrying a `targets`
key.  Iterating a non-list `targets` value is modelled as `TypeError`. -/
def update_panel (panel : Json) : Except PyError Json :=
  match pyContains panel "targets" with
  | .error e => .error e
  | .ok false => .ok panel
  | .ok true =>
      match pyIndex panel "targets" with
      | .error e => .error e
      | .ok (.arr l) =>
          match l.mapM update_target with
          | .error e => .error e
          | .ok updated => pySetItem panel "targets" (.arr updated)
      | .ok _ => .error .typeError

/-- The module body of `add-grafana-templating.py` between `json.load` and
`json.dump`: assign the templating section, rewrite every panel target in
place, retitle the dashboard, and bump `version`.  The loop mutates the
panel list the dashboard already holds, so its effect is stored back only
when a `panels` key exists. -/
def templating_module (dashboard : Json) : Except PyError Json :=
  match pySetItem dashboard "templating" templatingValue with
  | .error e => .error e
  | .ok d0 =>
  match
    ((match lookupOf d0 "panels" with
     | some (.arr l) =>
         match l.mapM update_panel with
         | .error e => .error e
         | .ok updated => pySetItem d0 "panels" (.arr updated)
     | some _ => .error .typeError
     | none => .ok d0) : Except PyError Json) with
  | .error e => .error e
  | .ok d1 =>
  match pySetItem d1 "title" (.str "Solr Monitoring (Multi-Instance)") with
  | .error e => .error e
  | .ok d2 =>
  match pySetItem d2 "description" (.str "Solr performance monitoring dashboard with support for multiple instances. Use template variables to filter by instance, job, and core.") with
  | .error e => .error e
  | .ok d3 =>
  match pyGetD d3 "version" (.num 0) with
  | .error e => .error e
  | .ok (.num n) => pySetItem d3 "version" (.num (n + 1))
  | .ok _ => .error .typeError

/-- The string value of a document's `status` field, when it is a string.
Comparing it to `"healthy"` mirrors `health_data["status"] == "healthy"`
(a Python `==` against a non-string status is simply `False`). -/
def statusOf (j : Json) : Option String :=
  match lookupOf j "status" with
  | some (.str s) => some s
  | _ => none

/-- Number of entries of the `panels` array of a script outcome (zero when
the script failed or the document carries no panel array). -/
def panelsCount (x : Except PyError Json) : Nat :=
  match x with
  | .ok j =>
      match lookupOf j "panels" with
      | some (.arr l) => l.length
      | _ => 0
  | .error _ => 0

/-! ## Character-level facts about base64 output -/

/-- Every alphabet selection lands in the alphabet. -/
theorem b64Char_mem (n : Nat) : b64Char n ∈ b64Alphabet := by
  unfold b64Char
  rw [List.getD_eq_getElem?_getD]
  cases h : b64Alphabet[n]? with
  | some c => simpa [h] using List.getElem?_mem h
  | none => simp [h, b64Alphabet]

/-- No alphabet character is ASCII whitespace, a space, or `=`. -/
theorem b64Alphabet_plain :
    ∀ c ∈ b64Alphabet, isPySpace c = false ∧ c ≠ ' ' ∧ c ≠ '=' := by decide

/-- Every character base64 encoding emits is an alphabet character or the
padding `=`. -/
theorem b64encodeCore_chars :
    ∀ bs, ∀ c ∈ b64encodeCore bs, c ∈ b64Alphabet ∨ c = '='
  | [] => by simp [b64encodeCore]
  | [a] => by
      simp only [b64encodeCore, List.mem_cons, List.not_mem_nil, or_false]
      rintro c (rfl | rfl | rfl | rfl) <;>
        first
          | exact Or.inl (b64Char_mem _)
          | exact Or.inr rfl
  | [a, b] => by
      simp only [b64encodeCore, List.mem_cons, List.not_mem_nil, or_false]
      rintro c (rfl | rfl | rfl | rfl) <;>
        first
          | exact Or.inl (b64Char_mem _)
          | exact Or.inr rfl
  | a :: b :: c :: rest => by
      simp only [b64encodeCore, List.mem_cons]
      rintro x (rfl | rfl | rfl | rfl | hx)
      · exact Or.inl (b64Char_mem _)
      · exact Or.inl (b64Char_mem _)
      · exact Or.inl (b64Char_mem _)
      · exact Or.inl (b64Char_mem _)
      · exact b64encodeCore_chars rest x hx

/-- No emitted character is whitespace or a space. -/
theorem b64encodeCore_no_space (bs : List Nat) :
    ∀ c ∈ b64encodeCore bs, isPySpace c = false ∧ c ≠ ' ' := by
  intro c hc
  rcases b64encodeCore_chars bs c hc with h | rfl
  · exact ⟨(b64Alphabet_plain c h).1, (b64Alphabet_plain c h).2.1⟩
  · exact ⟨by decide, by decide⟩

/-- The encoding of a non-empty byte list starts with an alphabet
character. -/
theorem b64encodeCore_cons :
    ∀ bs, bs ≠ [] →
      ∃ n rest, b64encodeCore bs = b64Char n :: rest := by
  intro bs hbs
  match bs with
  | [] => exact absurd rfl hbs
  | [a] => exact ⟨a / 4, _, rfl⟩
  | [a, b] => exact ⟨a / 4, _, rfl⟩
  | a :: b :: c :: rest => exact ⟨a / 4, _, rfl⟩

/-- Decoding an alphabet selection recovers the 6-bit value. -/
theorem b64DecChar_b64Char : ∀ v < 64, b64DecChar (b64Char v) = some v := by
  decide

/-- Alphabet selections are never the padding character. -/
theorem b64Char_ne_pad (n : Nat) : b64Char n ≠ '=' :=
  (b64Alphabet_plain _ (b64Char_mem n)).2.2

/-- Base64 decoding inverts base64 encoding on byte lists. -/
theorem b64decode_b64encode :
    ∀ bs, (∀ b ∈ bs, b < 256) → b64decodeQuads (b64encodeCore bs) = some bs
  | [], _ => rfl
  | [a], h => by
      have ha : a < 256 := h a (by simp)
      have h1 : a / 4 < 64 := by omega
      have h2 : a % 4 * 16 < 64 := by omega
      simp only [b64encodeCore, b64decodeQuads, b64DecChar_b64Char _ h1,
        b64DecChar_b64Char _ h2, if_pos rfl]
      have e1 : a / 4 * 4 + a % 4 * 16 / 16 = a := by omega
      rw [e1]
      simp
  | [a, b], h => by
      have ha : a < 256 := h a (by simp)
      have hb : b < 256 := h b (by simp)
      have h1 : a / 4 < 64 := by omega
      have h2 : a % 4 * 16 + b / 16 < 64 := by omega
      have h3 : b % 16 * 4 < 64 := by omega
      simp only [b64encodeCore, b64decodeQuads, b64DecChar_b64Char _ h1,
        b64DecChar_b64Char _ h2, b64DecChar_b64Char _ h3, if_pos rfl,
        if_neg (b64Char_ne_pad (b % 16 * 4))]
      have e1 : a / 4 * 4 + (a % 4 * 16 + b / 16) / 16 = a := by omega
      have e2 : (a % 4 * 16 + b / 16) % 16 * 16 + b % 16 * 4 / 4 = b := by
        omega
      rw [e1, e2]
      simp
  | a :: b :: c :: rest, h => by
      have ha : a < 256 := h a (by simp)
      have hb : b < 256 := h b (by simp)
      have hc : c < 256 := h c (by simp)
      have h1 : a / 4 < 64 := by omega
      have h2 : a % 4 * 16 + b / 16 < 64 := by omega
      have h3 : b % 16 * 4 + c / 64 < 64 := by omega
      have h4 : c % 64 < 64 := by omega
      have ih : b64decodeQuads (b64encodeCore rest) = some rest :=
        b64decode_b64encode rest (fun x hx => h x (by simp [hx]))
      simp only [b64encodeCore, b64decodeQuads, b64DecChar_b64Char _ h1,
        b64DecChar_b64Char _ h2, b64DecChar_b64Char _ h3,
        b64DecChar_b64Char _ h4, if_neg (b64Char_ne_pad (c % 64)), ih,
        Option.map_some']
      have e1 : a / 4 * 4 + (a % 4 * 16 + b / 16) / 16 = a := by omega
      have e2 : (a % 4 * 16 + b / 16) % 16 * 16 + (b % 16 * 4 + c / 64) / 4 = b := by
        omega
      have e3 : (b % 16 * 4 + c / 64) % 4 * 64 + c % 64 = c := by omega
      rw [e1, e2, e3]

/-! ## Record parsing facts -/

/-- Splitting a space-free character list yields one field. -/
theorem splitSpaceList_nospace :
    ∀ cs : List Char, (∀ c ∈ cs, c ≠ ' ') → splitSpaceList cs = [cs]
  | [], _ => rfl
  | c :: rest, h => by
      have hc : ¬ (c = ' ') := h c (by simp)
      have ih := splitSpaceList_nospace rest (fun x hx => h x (by simp [hx]))
      simp only [splitSpaceList, if_neg hc, ih]

/-- Splitting around a single space between a space-free prefix and an
arbitrary suffix separates exactly there. -/
theorem splitSpaceList_append :
    ∀ xs ys : List Char, (∀ c ∈ xs, c ≠ ' ') →
      splitSpaceList (xs ++ ' ' :: ys) = xs :: splitSpaceList ys
  | [], ys, _ => by simp [splitSpaceList]
  | x :: xs, ys, h => by
      have hx : ¬ (x = ' ') := h x (by simp)
      have ih : splitSpaceList (List.append xs (' ' :: ys)) =
          xs :: splitSpaceList ys :=
        splitSpaceList_append xs ys (fun c hc => h c (by simp [hc]))
      simp only [List.cons_append, splitSpaceList, if_neg hx, ih]

/-- A `dropWhile` is the identity when the head fails the predicate. -/
theorem dropWhile_eq_self_of_head (p : Char → Bool) (cs : List Char)
    (h : ∀ c, cs.head? = some c → p c = false) : cs.dropWhile p = cs := by
  cases cs with
  | nil => rfl
  | cons a t => simp [List.dropWhile, h a rfl]

/-- Stripping is the identity when both ends are not whitespace. -/
theorem stripList_eq_self (cs : List Char)
    (h1 : ∀ c, cs.head? = some c → isPySpace c = false)
    (h2 : ∀ c, cs.getLast? = some c → isPySpace c = false) :
    stripList cs = cs := by
  unfold stripList
  rw [dropWhile_eq_self_of_head _ _ h1]
  rw [dropWhile_eq_self_of_head _ _
    (fun c hc => h2 c (by rwa [List.head?_reverse] at hc))]
  exact List.reverse_reverse cs

/-- The character data of an explicit-salt record: digest encoding, one
space, salt encoding. -/
theorem hash_password_data (e : Nat → Nat) (P : String) (s : List Nat) :
    (hash_password e P (some s)).data =
      b64encodeCore (sha256 (sha256 (s ++ utf8Encode P))) ++
        ' ' :: b64encodeCore s := by
  have h : (hash_password e P (some s)).data =
      (b64encodeCore (sha256 (sha256 (s ++ utf8Encode P))) ++ [' ']) ++
        b64encodeCore s := rfl
  rw [h, List.append_assoc]
  rfl

/-- The SHA-256 digest always has 32 bytes. -/
theorem sha256_length (m : List Nat) : (sha256 m).length = 32 := by
  simp [sha256, wordToBytes]

/-- The SHA-256 digest is never empty. -/
theorem sha256_ne_nil (m : List Nat) : sha256 m ≠ [] := by
  intro h
  have := sha256_length m
  rw [h] at this
  simp at this

/-- The base64 encoding of a non-empty byte list is non-empty. -/
theorem b64encodeCore_ne_nil (bs : List Nat) (h : bs ≠ []) :
    b64encodeCore bs ≠ [] := by
  obtain ⟨n, rest, hb⟩ := b64encodeCore_cons bs h
  simp [hb]

/-- Splitting an explicit-salt record on spaces yields exactly the digest
token and the salt token. -/
theorem record_split (e : Nat → Nat) (P : String) (s : List Nat) :
    pySplitSpace (hash_password e P (some s)) =
      [b64encode (sha256 (sha256 (s ++ utf8Encode P))), b64encode s] := by
  unfold pySplitSpace
  rw [hash_password_data]
  rw [splitSpaceList_append _ _
    (fun c hc => (b64encodeCore_no_space _ c hc).2)]
  rw [splitSpaceList_nospace _
    (fun c hc => (b64encodeCore_no_space _ c hc).2)]
  rfl

/-- Stripping an explicit-salt record with a non-empty salt is the
identity: both ends are base64 characters. -/
theorem record_strip (e : Nat → Nat) (P : String) (s : List Nat)
    (hs : s ≠ []) :
    pyStrip (hash_password e P (some s)) = hash_password e P (some s) := by
  have hd2 : b64encodeCore s ≠ [] := b64encodeCore_ne_nil s hs
  obtain ⟨n, rest, hd1⟩ :=
    b64encodeCore_cons (sha256 (sha256 (s ++ utf8Encode P)))
      (sha256_ne_nil (sha256 (s ++ utf8Encode P)))
  have hdata := hash_password_data e P s
  have hstrip : stripList (hash_password e P (some s)).data =
      (hash_password e P (some s)).data := by
    apply stripList_eq_self
    · intro c hc
      rw [hdata, hd1, List.cons_append, List.head?_cons] at hc
      cases hc
      exact (b64Alphabet_plain _ (b64Char_mem n)).1
    · intro c hc
      have hassoc : (hash_password e P (some s)).data =
          (b64encodeCore (sha256 (sha256 (s ++ utf8Encode P))) ++ [' ']) ++
            b64encodeCore s := rfl
      rw [hassoc, List.getLast?_append_of_ne_nil _ hd2] at hc
      obtain ⟨hne, rfl⟩ := List.mem_getLast?_eq_getLast hc
      exact (b64encodeCore_no_space s _ (List.getLast_mem hne)).1
  show String.mk (stripList (hash_password e P (some s)).data) = _
  rw [hstrip]

/-- Unfold `verify_password` once the stripped record is known to split
into exactly two tokens.  (Stated over an abstract record string: unfolding
with a symbolic `hash_password` application in place makes the elaborator
attempt to reduce the hash pipeline and diverge.) -/
theorem verify_password_split2 (e : Nat → Nat) (P R t1 t2 : String)
    (hsplit : pySplitSpace (pyStrip R) = [t1, t2]) :
    verify_password e P R =
      (match b64decode t2 with
       | some salt => decide (hash_password e P (some salt) = R)
       | none => false) := by
  unfold verify_password
  rw [hsplit]

/-- The result of `verify_password` is `false` whenever the stripped record does not split
into exactly two tokens. -/
theorem verify_password_split_other (e : Nat → Nat) (P R : String)
    (h2 : (pySplitSpace (pyStrip R)).length ≠ 2) :
    verify_password e P R = false := by
  unfold verify_password
  cases hsp : pySplitSpace (pyStrip R) with
  | nil => rfl
  | cons a t =>
      cases t with
      | nil => rfl
      | cons b t2 =>
          cases t2 with
          | nil => exact absurd (by rw [hsp]; rfl) h2
          | cons c t3 => rfl

/-- A successful verification exposes the two tokens, the decoded salt, and
the exact-match equation. -/
theorem verify_password_true_elim (e : Nat → Nat) (P R : String)
    (h : verify_password e P R = true) :
    ∃ t1 t2 salt, pySplitSpace (pyStrip R) = [t1, t2] ∧
      b64decode t2 = some salt ∧ hash_password e P (some salt) = R := by
  cases hsp : pySplitSpace (pyStrip R) with
  | nil => rw [verify_password_split_other e P R (by rw [hsp]; simp)] at h; cases h
  | cons a t =>
      cases t with
      | nil =>
          rw [verify_password_split_other e P R (by rw [hsp]; simp)] at h
          cases h
      | cons b t2 =>
          cases t2 with
          | nil =>
              rw [verify_password_split2 e P R a b hsp] at h
              cases hdec : b64decode b with
              | none => rw [hdec] at h; cases h
              | some salt =>
                  rw [hdec] at h
                  exact ⟨a, b, salt, rfl, hdec, of_decide_eq_true h⟩
          | cons c t3 =>
              rw [verify_password_split_other e P R (by rw [hsp]; simp)] at h
              cases h

/-- Round-trip: a record hashed with any non-empty byte salt verifies, under
any entropy streams on either side. -/
theorem verify_hash_roundtrip (e1 e2 : Nat → Nat) (P : String)
    (s : List Nat) (hbytes : ∀ b ∈ s, b < 256) (hne : s ≠ []) :
    verify_password e1 P (hash_password e2 P (some s)) = true := by
  have hstrip := record_strip e2 P s hne
  have hsplit : pySplitSpace (pyStrip (hash_password e2 P (some s))) =
      [b64encode (sha256 (sha256 (s ++ utf8Encode P))), b64encode s] := by
    rw [hstrip]; exact record_split e2 P s
  rw [verify_password_split2 e1 P _ _ _ hsplit]
  have hdec : b64decode (b64encode s) = some s := b64decode_b64encode s hbytes
  rw [hdec]
  show decide (hash_password e1 P (some s) = hash_password e2 P (some s)) = true
  exact decide_eq_true rfl

/-- Entropy bytes are bytes. -/
theorem generate_random_salt_bytes (e : Nat → Nat) (n : Nat) :
    ∀ b ∈ generate_random_salt e n, b < 256 := by
  intro b hb
  simp only [generate_random_salt, List.mem_map] at hb
  obtain ⟨i, _, rfl⟩ := hb
  exact Nat.mod_lt _ (by norm_num)

/-- A fresh salt has exactly the requested number of bytes. -/
theorem generate_random_salt_length (e : Nat → Nat) (n : Nat) :
    (generate_random_salt e n).length = n := by
  simp [generate_random_salt]

/-- A fresh 32-byte salt is non-empty. -/
theorem generate_random_salt_ne_nil (e : Nat → Nat) :
    generate_random_salt e 32 ≠ [] := by
  intro h
  have := generate_random_salt_length e 32
  rw [h] at this
  simp at this

/-- Hashing without a salt is hashing with the 32 fresh entropy bytes. -/
theorem hash_password_none (e : Nat → Nat) (P : String) :
    hash_password e P none =
      hash_password e P (some (generate_random_salt e 32)) := rfl

/-! ## The checked claims -/

/-- C1: for every password string `P` and salt byte sequence `S`,
`hash_password` returns exactly
`base64(SHA-256(SHA-256(S ++ utf8(P)))) ++ " " ++ base64(S)` — second
SHA-256 round over the raw first digest, both tokens encoded independently,
digest first — and the output for a fixed `(P, S)` pair is deterministic:
it does not depend on the entropy stream. -/
theorem C1_hash_format (e1 e2 : Nat → Nat) (P : String) (S : List Nat) :
    hash_password e1 P (some S) =
      b64encode (sha256 (sha256 (S ++ utf8Encode P))) ++ " " ++ b64encode S ∧
    hash_password e1 P (some S) = hash_password e2 P (some S) :=
  ⟨rfl, rfl⟩

/-- Stripping a space-free list followed by one trailing space recovers the
space-free part. -/
theorem stripList_append_space (xs : List Char)
    (hx : ∀ c ∈ xs, isPySpace c = false) : stripList (xs ++ [' ']) = xs := by
  cases hxs : xs with
  | nil => rfl
  | cons x t =>
      have hx0 : isPySpace x = false := hx x (by simp [hxs])
      have h1 : List.dropWhile isPySpace (x :: t ++ [' ']) =
          x :: t ++ [' '] := by
        simp [List.dropWhile_cons, hx0]
      have h2 : (x :: t ++ [' ']).reverse = ' ' :: (x :: t).reverse := by
        simp
      have h3 : List.dropWhile isPySpace (' ' :: (x :: t).reverse) =
          List.dropWhile isPySpace ((x :: t).reverse) := by
        rw [List.dropWhile_cons]
        simp [show isPySpace ' ' = true from rfl]
      have h4 : List.dropWhile isPySpace ((x :: t).reverse) =
          (x :: t).reverse := by
        apply dropWhile_eq_self_of_head
        intro c hc
        rw [List.head?_reverse] at hc
        obtain ⟨hne, rfl⟩ := List.mem_getLast?_eq_getLast hc
        exact hx _ (by rw [hxs]; exact List.getLast_mem hne)
      unfold stripList
      rw [h1, h2, h3, h4, List.reverse_reverse]

/-- C2 counterexample: with the empty salt — a legitimate salt byte
sequence — the freshly produced record ends in a space, stripping loses the
empty salt token, and verification of the very password that produced the
record fails. -/
theorem C2_roundtrip_counterexample :
    verify_password (fun _ => 0) "x"
      (hash_password (fun _ => 0) "x" (some [])) = false := by
  apply verify_password_split_other
  have hnil : b64encodeCore [] = [] := rfl
  show (pySplitSpace (pyStrip (hash_password (fun _ => 0) "x" (some [])))).length ≠ 2
  unfold pyStrip pySplitSpace
  rw [hash_password_data, hnil]
  rw [stripList_append_space _ (fun c hc => (b64encodeCore_no_space _ c hc).1)]
  rw [splitSpaceList_nospace _ (fun c hc => (b64encodeCore_no_space _ c hc).2)]
  simp

/-- C2 (amended): the round-trip `verify(P, hash(P, S)) = true` holds for
every password `P` and every *non-empty* salt byte sequence `S`, in
particular for the fresh random 32-byte salt drawn when no salt is supplied;
the empty salt is the sole exception (see the counterexample). -/
theorem C2_roundtrip_amended (e1 e2 e3 : Nat → Nat) (P : String) :
    (∀ s : List Nat, s ≠ [] → (∀ b ∈ s, b < 256) →
      verify_password e2 P (hash_password e1 P (some s)) = true) ∧
    verify_password e3 P (hash_password e1 P none) = true := by
  constructor
  · intro s hne hb
    exact verify_hash_roundtrip e2 e1 P s hb hne
  · rw [hash_password_none]
    exact verify_hash_roundtrip e3 e1 P _ (generate_random_salt_bytes e1 32)
      (generate_random_salt_ne_nil e1)

/-- Witness for the amended C2 round-trip at the concrete salt `[7]`. -/
theorem C2_roundtrip_amended_witness :
    verify_password (fun _ => 1) "pw"
      (hash_password (fun _ => 0) "pw" (some [7])) = true :=
  (C2_roundtrip_amended (fun _ => 0) (fun _ => 1) (fun _ => 2) "pw").1 [7]
    (by decide) (by decide)

/-- C3: `verify_password` always returns a boolean (it is a total function
into `Bool`); a record that does not split on single spaces into exactly two
tokens verifies `false`, a salt token that fails base64 decoding verifies
`false`, a recomputed record differing from the original under full-string
equality verifies `false`, and `true` is returned only on an exact match. -/
theorem C3_verify_total (e : Nat → Nat) (P R : String) :
    ((pySplitSpace R).length ≠ 2 → verify_password e P R = false) ∧
    (∀ t1 t2, pySplitSpace (pyStrip R) = [t1, t2] → b64decode t2 = none →
      verify_password e P R = false) ∧
    (∀ t1 t2 salt, pySplitSpace (pyStrip R) = [t1, t2] →
      b64decode t2 = some salt → hash_password e P (some salt) ≠ R →
      verify_password e P R = false) ∧
    (verify_password e P R = true →
      ∃ t1 t2 salt, pySplitSpace (pyStrip R) = [t1, t2] ∧
        b64decode t2 = some salt ∧ R = hash_password e P (some salt)) := by
  refine ⟨?_, ?_, ?_, ?_⟩
  · intro hlen
    cases hv : verify_password e P R with
    | false => rfl
    | true =>
        obtain ⟨t1, t2, salt, hsp, hdec, heq⟩ :=
          verify_password_true_elim e P R hv
        refine absurd ?_ hlen
        rw [← heq, record_split]
        rfl
  · intro t1 t2 hsp hdec
    rw [verify_password_split2 e P R t1 t2 hsp, hdec]
  · intro t1 t2 salt hsp hdec hne
    rw [verify_password_split2 e P R t1 t2 hsp, hdec]
    exact decide_eq_false hne
  · intro hv
    obtain ⟨t1, t2, salt, hsp, hdec, heq⟩ := verify_password_true_elim e P R hv
    exact ⟨t1, t2, salt, hsp, hdec, heq.symm⟩

/-- Witness for C3 at a concrete malformed record with no space. -/
theorem C3_verify_total_witness :
    verify_password (fun _ => 0) "pw" "nospace" = false :=
  (C3_verify_total (fun _ => 0) "pw" "nospace").1 (by decide)

/-- Entropy irrelevance: `verify_password` ignores its entropy stream: the salt is always taken
from the record. -/
theorem verify_password_entropy (e1 e2 : Nat → Nat) (pw s : String) :
    verify_password e1 pw s = verify_password e2 pw s := rfl

/-- The helper `verify_and_reuse` propagates a loader exception. -/
theorem verify_and_reuse_load_error (e : Nat → Nat) (u pw : String)
    (file : ReadResult) (er : PyError)
    (hload : load_existing_hashes file = .error er) :
    verify_and_reuse e u pw file = .error er := by
  unfold verify_and_reuse
  rw [hload]

/-- The helper `verify_and_reuse` propagates an exception of the store lookup. -/
theorem verify_and_reuse_get_error (e : Nat → Nat) (u pw : String)
    (file : ReadResult) (hashes : Json) (er : PyError)
    (hload : load_existing_hashes file = .ok hashes)
    (hget : pyGetOpt hashes u = .error er) :
    verify_and_reuse e u pw file = .error er := by
  unfold verify_and_reuse
  simp only [hload, hget]

/-- With no stored record for the user, `verify_and_reuse` hashes afresh. -/
theorem verify_and_reuse_none (e : Nat → Nat) (u pw : String)
    (file : ReadResult) (hashes : Json)
    (hload : load_existing_hashes file = .ok hashes)
    (hget : pyGetOpt hashes u = .ok none) :
    verify_and_reuse e u pw file = .ok (hash_password e pw none) := by
  unfold verify_and_reuse
  simp only [hload, hget]

/-- With a non-string stored record, `verify_and_reuse` hashes afresh. -/
theorem verify_and_reuse_nonstr (e : Nat → Nat) (u pw : String)
    (file : ReadResult) (hashes : Json) (w : Json)
    (hload : load_existing_hashes file = .ok hashes)
    (hget : pyGetOpt hashes u = .ok (some w))
    (hw : ∀ s, w ≠ .str s) :
    verify_and_reuse e u pw file = .ok (hash_password e pw none) := by
  unfold verify_and_reuse
  simp only [hload, hget]
  cases w with
  | str s => exact absurd rfl (hw s)
  | null => rfl
  | bool b => rfl
  | num n => rfl
  | arr l => rfl
  | obj fs => rfl

/-- A stored string record that fails the guard makes `verify_and_reuse`
hash afresh. -/
theorem verify_and_reuse_str_false (e : Nat → Nat) (u pw : String)
    (file : ReadResult) (hashes : Json) (s : String)
    (hload : load_existing_hashes file = .ok hashes)
    (hget : pyGetOpt hashes u = .ok (some (.str s)))
    (hguard : (pyTruthy (.str s) && verify_password e pw s) = false) :
    verify_and_reuse e u pw file = .ok (hash_password e pw none) := by
  unfold verify_and_reuse
  simp only [hload, hget]
  simp [hguard]

/-- A stored string record that passes the guard is returned unchanged. -/
theorem verify_and_reuse_str_true (e : Nat → Nat) (u pw : String)
    (file : ReadResult) (hashes : Json) (s : String)
    (hload : load_existing_hashes file = .ok hashes)
    (hget : pyGetOpt hashes u = .ok (some (.str s)))
    (hguard : (pyTruthy (.str s) && verify_password e pw s) = true) :
    verify_and_reuse e u pw file = .ok s := by
  unfold verify_and_reuse
  simp only [hload, hget]
  simp [hguard]

/-- A freshly drawn record verifies against its password under any entropy
stream. -/
theorem fresh_record_verifies (e1 e2 : Nat → Nat) (pw : String) :
    verify_password e2 pw (hash_password e1 pw none) = true := by
  rw [hash_password_none]
  exact verify_hash_roundtrip e2 e1 pw _ (generate_random_salt_bytes e1 32)
    (generate_random_salt_ne_nil e1)

/-- C9: every record `verify_and_reuse` actually returns verifies against
the password — the reused branch is guarded by `verify_password`, and the
fresh branch satisfies the round-trip property. -/
theorem C9_returned_record_verifies (e1 e2 : Nat → Nat) (u pw : String)
    (file : ReadResult) (r : String)
    (h : verify_and_reuse e1 u pw file = .ok r) :
    verify_password e2 pw r = true := by
  cases hload : load_existing_hashes file with
  | error er =>
      rw [verify_and_reuse_load_error e1 u pw file er hload] at h
      cases h
  | ok hashes =>
  cases hget : pyGetOpt hashes u with
  | error er =>
      rw [verify_and_reuse_get_error e1 u pw file hashes er hload hget] at h
      cases h
  | ok v =>
  cases v with
  | none =>
      rw [verify_and_reuse_none e1 u pw file hashes hload hget] at h
      cases h
      exact fresh_record_verifies e1 e2 pw
  | some w =>
  cases hw : w with
  | str s =>
      rw [hw] at hget
      cases hguard : pyTruthy (.str s) && verify_password e1 pw s with
      | false =>
          rw [verify_and_reuse_str_false e1 u pw file hashes s hload hget
            hguard] at h
          cases h
          exact fresh_record_verifies e1 e2 pw
      | true =>
          rw [verify_and_reuse_str_true e1 u pw file hashes s hload hget
            hguard] at h
          cases h
          have hv1 : verify_password e1 pw r = true :=
            (Bool.and_eq_true_iff.mp hguard).2
          rw [verify_password_entropy e2 e1]
          exact hv1
  | null =>
      rw [hw] at hget
      rw [verify_and_reuse_nonstr e1 u pw file hashes _ hload hget
        (by intro s h1; cases h1)] at h
      cases h
      exact fresh_record_verifies e1 e2 pw
  | bool b =>
      rw [hw] at hget
      rw [verify_and_reuse_nonstr e1 u pw file hashes _ hload hget
        (by intro s h1; cases h1)] at h
      cases h
      exact fresh_record_verifies e1 e2 pw
  | num n =>
      rw [hw] at hget
      rw [verify_and_reuse_nonstr e1 u pw file hashes _ hload hget
        (by intro s h1; cases h1)] at h
      cases h
      exact fresh_record_verifies e1 e2 pw
  | arr l =>
      rw [hw] at hget
      rw [verify_and_reuse_nonstr e1 u pw file hashes _ hload hget
        (by intro s h1; cases h1)] at h
      cases h
      exact fresh_record_verifies e1 e2 pw
  | obj fs =>
      rw [hw] at hget
      rw [verify_and_reuse_nonstr e1 u pw file hashes _ hload hget
        (by intro s h1; cases h1)] at h
      cases h
      exact fresh_record_verifies e1 e2 pw

/-- Witness for C9: the fresh branch on an absent store yields a record
that verifies. -/
theorem C9_returned_record_verifies_witness :
    verify_password (fun _ => 1) "pw"
      (hash_password (fun _ => 0) "pw" none) = true :=
  C9_returned_record_verifies (fun _ => 0) (fun _ => 1) "solr" "pw"
    .absent (hash_password (fun _ => 0) "pw" none) rfl

/-- C6: whenever the store has no record for the user, or the stored record
no longer verifies — in particular on an absent store file or one whose
contents fail to parse (an empty file included) — `verify_and_reuse`
returns the brand-new record `hash_password(password)` built over a fresh
32-byte entropy draw. -/
theorem C6_fresh_branch (e : Nat → Nat) (u pw : String) (file : ReadResult) :
    (∀ hashes, load_existing_hashes file = .ok hashes →
      pyGetOpt hashes u = .ok none →
      verify_and_reuse e u pw file = .ok (hash_password e pw none)) ∧
    (∀ hashes s, load_existing_hashes file = .ok hashes →
      pyGetOpt hashes u = .ok (some (.str s)) →
      verify_password e pw s = false →
      verify_and_reuse e u pw file = .ok (hash_password e pw none)) ∧
    verify_and_reuse e u pw .absent = .ok (hash_password e pw none) ∧
    verify_and_reuse e u pw .invalidJson = .ok (hash_password e pw none) ∧
    hash_password e pw none =
      b64encode (sha256 (sha256 (generate_random_salt e 32 ++ utf8Encode pw)))
        ++ " " ++ b64encode (generate_random_salt e 32) := by
  refine ⟨?_, ?_, ?_, ?_, rfl⟩
  · intro hashes hload hget
    exact verify_and_reuse_none e u pw file hashes hload hget
  · intro hashes s hload hget hv
    exact verify_and_reuse_str_false e u pw file hashes s hload hget
      (by rw [hv, Bool.and_false])
  · exact verify_and_reuse_none e u pw .absent (.obj []) rfl rfl
  · exact verify_and_reuse_none e u pw .invalidJson (.obj []) rfl rfl

/-- Witness for C6 at a parsed store with no credentials for the user. -/
theorem C6_fresh_branch_witness :
    verify_and_reuse (fun _ => 0) "solr" "pw" (.parsed (.obj [])) =
      .ok (hash_password (fun _ => 0) "pw" none) :=
  (C6_fresh_branch (fun _ => 0) "solr" "pw" (.parsed (.obj []))).1
    (.obj []) rfl rfl

/-- C5 (amended): when the store holds a string record for the user that
still verifies against the password, `verify_and_reuse` returns that record
unchanged, whatever entropy either call draws — so consecutive calls agree
in exactly this case.  When the fresh branch runs instead, the output
follows the entropy drawn and consecutive calls differ (see the
counterexample). -/
theorem C5_idempotent_amended (e1 e2 : Nat → Nat) (u pw : String)
    (file : ReadResult) (hashes : Json) (r : String)
    (hload : load_existing_hashes file = .ok hashes)
    (hget : pyGetOpt hashes u = .ok (some (.str r)))
    (hverify : verify_password e1 pw r = true) :
    verify_and_reuse e1 u pw file = .ok r ∧
    verify_and_reuse e2 u pw file = .ok r := by
  obtain ⟨t1, t2, salt, hsp, hdec, heq⟩ :=
    verify_password_true_elim e1 pw r hverify
  have hrne : r ≠ "" := by
    intro hr
    have hd := hash_password_data e1 pw salt
    rw [heq, hr] at hd
    exact absurd hd.symm (by simp)
  have htruthy : pyTruthy (.str r) = true := decide_eq_true hrne
  constructor
  · exact verify_and_reuse_str_true e1 u pw file hashes r hload hget
      (by rw [htruthy, hverify]; rfl)
  · exact verify_and_reuse_str_true e2 u pw file hashes r hload hget
      (by rw [htruthy, verify_password_entropy e2 e1, hverify]; rfl)

/-- Witness for the amended C5 at a concrete verifying store entry. -/
theorem C5_idempotent_amended_witness :
    verify_and_reuse (fun _ => 1) "solr" "pw"
        (.parsed (.obj [("authentication", .obj [("credentials",
          .obj [("solr",
            .str (hash_password (fun _ => 0) "pw" (some [7])))])])])) =
      .ok (hash_password (fun _ => 0) "pw" (some [7])) ∧
    verify_and_reuse (fun _ => 2) "solr" "pw"
        (.parsed (.obj [("authentication", .obj [("credentials",
          .obj [("solr",
            .str (hash_password (fun _ => 0) "pw" (some [7])))])])])) =
      .ok (hash_password (fun _ => 0) "pw" (some [7])) :=
  C5_idempotent_amended (fun _ => 1) (fun _ => 2) "solr" "pw" _ _ _ rfl rfl
    (verify_hash_roundtrip (fun _ => 1) (fun _ => 0) "pw" [7]
      (by decide) (by decide))

set_option maxRecDepth 10000 in
/-- C5 counterexample: on an unmodified store lacking the user — here the
absent store — two consecutive calls draw disjoint stretches of the entropy
stream (the second call starts 32 bytes further on) and return records with
different salt tokens, so the claimed equality of consecutive outputs
fails. -/
theorem C5_idempotent_counterexample :
    verify_and_reuse (fun i => i) "admin" "pw" .absent ≠
      verify_and_reuse (fun i => i + 32) "admin" "pw" .absent := by
  intro h
  have h1 : verify_and_reuse (fun i => i) "admin" "pw" .absent =
      .ok (hash_password (fun i => i) "pw" none) :=
    verify_and_reuse_none _ "admin" "pw" .absent (.obj []) rfl rfl
  have h2 : verify_and_reuse (fun i => i + 32) "admin" "pw" .absent =
      .ok (hash_password (fun i => i + 32) "pw" none) :=
    verify_and_reuse_none _ "admin" "pw" .absent (.obj []) rfl rfl
  rw [h1, h2] at h
  injection h with h
  have hs1 := record_split (fun i => i) "pw" (generate_random_salt (fun i => i) 32)
  have hs2 := record_split (fun i => i + 32) "pw"
    (generate_random_salt (fun i => i + 32) 32)
  rw [← hash_password_none] at hs1 hs2
  have hsplit := congrArg pySplitSpace h
  rw [hs1, hs2] at hsplit
  have hsalts : b64encode (generate_random_salt (fun i => i) 32) =
      b64encode (generate_random_salt (fun i => i + 32) 32) := by
    have := congrArg (fun l => l.getLast? ) hsplit
    simpa using this
  exact absurd hsalts (by decide)

/-- C4 counterexample: a file whose contents are the valid JSON document
`[]` — not an object — makes `.get('authentication', {})` raise
`AttributeError`, which the `except (json.JSONDecodeError, IOError)` clause
does not catch, so the loader fails its caller instead of returning an
empty mapping. -/
theorem C4_load_counterexample :
    load_existing_hashes (.parsed (.arr [])) = .error .attributeError := rfl

/-- C4 (amended): `load_existing_hashes` returns an empty mapping for an
absent, unreadable or non-JSON file; for a parsed document that is an
object whose `authentication` value (when present) is also an object, it
returns the `authentication.credentials` value (empty mapping when absent)
without raising; but for a valid JSON document whose top level is not an
object, or whose `authentication` value is not an object, the
`AttributeError` of `.get` escapes to the caller. -/
theorem C4_load_amended :
    load_existing_hashes .absent = .ok (.obj []) ∧
    load_existing_hashes .unreadable = .ok (.obj []) ∧
    load_existing_hashes .invalidJson = .ok (.obj []) ∧
    (∀ fs, lookupField fs "authentication" = none →
      load_existing_hashes (.parsed (.obj fs)) = .ok (.obj [])) ∧
    (∀ fs afs, lookupField fs "authentication" = some (.obj afs) →
      load_existing_hashes (.parsed (.obj fs)) =
        .ok ((lookupField afs "credentials").getD (.obj []))) ∧
    (∀ j, (∀ fs, j ≠ .obj fs) →
      load_existing_hashes (.parsed j) = .error .attributeError) ∧
    (∀ fs v, lookupField fs "authentication" = some v →
      (∀ afs, v ≠ .obj afs) →
      load_existing_hashes (.parsed (.obj fs)) = .error .attributeError) := by
  refine ⟨rfl, rfl, rfl, ?_, ?_, ?_, ?_⟩
  · intro fs hnone
    unfold load_existing_hashes
    simp only [pyGetD, hnone]
    rfl
  · intro fs afs hsome
    unfold load_existing_hashes
    simp only [pyGetD, hsome]
    rfl
  · intro j hj
    unfold load_existing_hashes
    cases j with
    | obj fs => exact absurd rfl (hj fs)
    | null => rfl
    | bool b => rfl
    | num n => rfl
    | str s => rfl
    | arr l => rfl
  · intro fs v hsome hv
    unfold load_existing_hashes
    simp only [pyGetD, hsome]
    cases v with
    | obj afs => exact absurd rfl (hv afs)
    | null => rfl
    | bool b => rfl
    | num n => rfl
    | str s => rfl
    | arr l => rfl

/-- Witness for the amended C4 at a concrete non-object document. -/
theorem C4_load_amended_witness :
    load_existing_hashes (.parsed (.str "oops")) = .error .attributeError :=
  C4_load_amended.2.2.2.2.2.1 (.str "oops") (fun _fs h => nomatch h)

/-- C10: with no explicit salt the generated salt is exactly 32 bytes —
`hash_password` hardcodes `generate_random_salt(32)` — and the parsed
`--salt-bytes` value is never consulted: the program's behaviour is
identical for every value of the option, on every code path of `main`. -/
theorem C10_salt_bytes_unused (e : Nat → Nat) (a : Args) (n : Int)
    (P : String) :
    script_main e (setSaltBytes a n) = script_main e a ∧
    (generate_random_salt e 32).length = 32 ∧
    hash_password e P none =
      hash_password e P (some (generate_random_salt e 32)) := by
  refine ⟨?_, generate_random_salt_length e 32, rfl⟩
  cases a with
  | mk p v r sb => rfl

/-- Evaluation of `handle_health` when the Solr check reports unavailable:
status `unhealthy`, an error entry, HTTP 503. -/
theorem handle_health_unavailable (customer : String) (solrF : SolrFetch)
    (coresF sysF : SubFetch) (rest : List (String × Json))
    (hcs : check_solr solrF = .obj (("available", .bool false) :: rest)) :
    handle_health customer solrF coresF sysF =
      (503, .obj [("customer", .str customer), ("version", .str "2.2.0"),
                  ("status", .str "unhealthy"),
                  ("solr", .obj (("available", .bool false) :: rest)),
                  ("cores", .arr []), ("system", .obj []),
                  ("errors", .arr [.str "Solr is not available"])]) := by
  unfold handle_health
  rw [hcs]
  rfl

/-- Evaluation of `handle_health` when the Solr check reports available:
status `healthy`, cores and system attached, HTTP 200. -/
theorem handle_health_available (customer : String) (solrF : SolrFetch)
    (coresF sysF : SubFetch) (rest : List (String × Json))
    (hcs : check_solr solrF = .obj (("available", .bool true) :: rest)) :
    handle_health customer solrF coresF sysF =
      (200, .obj [("customer", .str customer), ("version", .str "2.2.0"),
                  ("status", .str "healthy"),
                  ("solr", .obj (("available", .bool true) :: rest)),
                  ("cores", get_cores coresF),
                  ("system", get_system_info sysF),
                  ("errors", .arr [])]) := by
  unfold handle_health
  rw [hcs]
  rfl

/-- C7: for every combination of upstream outcomes, `handle_health` sends a
document carrying the `status`, `solr`, `cores`, `system` and `errors`
fields with HTTP 200 exactly when the computed status reads `healthy` and
503 in every other case, and `handle_ping` always answers 200 with the
static body `{"status": "ok"}`. -/
theorem C7_health_endpoints (customer : String) (solrF : SolrFetch)
    (coresF sysF : SubFetch) :
    ((handle_health customer solrF coresF sysF).1 = 200 ∨
      (handle_health customer solrF coresF sysF).1 = 503) ∧
    ((handle_health customer solrF coresF sysF).1 = 200 ↔
      statusOf (handle_health customer solrF coresF sysF).2 =
        some "healthy") ∧
    (lookupOf (handle_health customer solrF coresF sysF).2 "status").isSome
      = true ∧
    (lookupOf (handle_health customer solrF coresF sysF).2 "solr").isSome
      = true ∧
    (lookupOf (handle_health customer solrF coresF sysF).2 "cores").isSome
      = true ∧
    (lookupOf (handle_health customer solrF coresF sysF).2 "system").isSome
      = true ∧
    (lookupOf (handle_health customer solrF coresF sysF).2 "errors").isSome
      = true ∧
    handle_ping = (200, .obj [("status", .str "ok")]) := by
  cases solrF with
  | urlError e =>
      rw [handle_health_unavailable customer (.urlError e) coresF sysF
        [("error", .str e)] rfl]
      exact ⟨Or.inr rfl,
        ⟨fun h => by simp at h,
         fun h => by simp [statusOf, lookupOf, lookupField] at h⟩,
        rfl, rfl, rfl, rfl, rfl, rfl⟩
  | exn e =>
      rw [handle_health_unavailable customer (.exn e) coresF sysF
        [("error", .str ("Unexpected error: " ++ e))] rfl]
      exact ⟨Or.inr rfl,
        ⟨fun h => by simp at h,
         fun h => by simp [statusOf, lookupOf, lookupField] at h⟩,
        rfl, rfl, rfl, rfl, rfl, rfl⟩
  | ok data =>
      cases hcf : checkSolrFields data with
      | error er =>
          rw [handle_health_unavailable customer (.ok data) coresF sysF
            [("error", .str ("Unexpected error: " ++ pyErrMsg er))]
            (by simp only [check_solr, hcf])]
          exact ⟨Or.inr rfl,
            ⟨fun h => by simp at h,
             fun h => by simp [statusOf, lookupOf, lookupField] at h⟩,
            rfl, rfl, rfl, rfl, rfl, rfl⟩
      | ok stqt =>
          obtain ⟨st, qt⟩ := stqt
          rw [handle_health_available customer (.ok data) coresF sysF
            [("status", st), ("response_time_ms", qt)]
            (by simp only [check_solr, hcf])]
          exact ⟨Or.inl rfl, ⟨fun _ => rfl, fun _ => rfl⟩,
            rfl, rfl, rfl, rfl, rfl, rfl⟩

/-- Looking up the key just set returns the new value. -/
theorem lookupField_setFields_self :
    ∀ (fs : List (String × Json)) (k : String) (v : Json),
      lookupField (setFields fs k v) k = some v
  | [], k, v => by simp [setFields, lookupField]
  | (k1, v1) :: rest, k, v => by
      by_cases h : k = k1
      · simp [setFields, lookupField, h]
      · simp [setFields, lookupField, h,
          lookupField_setFields_self rest k v]

/-- Setting one key leaves every other key's lookup unchanged. -/
theorem lookupField_setFields_ne :
    ∀ (fs : List (String × Json)) (k k2 : String) (v : Json), k2 ≠ k →
      lookupField (setFields fs k v) k2 = lookupField fs k2
  | [], k, k2, v, h => by simp [setFields, lookupField, h]
  | (k1, v1) :: rest, k, k2, v, h => by
      by_cases h1 : k = k1
      · subst h1
        simp [setFields, lookupField, h]
      · by_cases h2 : k2 = k1
        · simp [setFields, lookupField, h1, h2]
        · simp [setFields, lookupField, h1, h2,
            lookupField_setFields_ne rest k k2 v h]

/-- Appending to a key that holds a list. -/
theorem pyAppendKey_obj (fs : List (String × Json)) (k : String) (v : Json)
    (l : List Json) (h : lookupField fs k = some (.arr l)) :
    pyAppendKey (.obj fs) k v = .ok (.obj (setFields fs k (.arr (l ++ [v])))) := by
  simp only [pyAppendKey, h]

/-- The templating module bumps `version` by one whenever it succeeds; the
other rewrites never touch that key. -/
theorem templating_module_version (fs2 : List (String × Json)) (m : Int)
    (d2 : Json) (ht : templating_module (.obj fs2) = .ok d2)
    (hv2 : (lookupField fs2 "version").getD (.num 0) = .num m) :
    lookupOf d2 "version" = some (.num (m + 1)) := by
  unfold templating_module at ht
  simp only [pySetItem, lookupOf] at ht
  cases hpan : lookupField (setFields fs2 "templating" templatingValue)
      "panels" with
  | none =>
      simp only [hpan, pySetItem] at ht
      have lv : lookupField
          (setFields (setFields (setFields fs2 "templating" templatingValue)
            "title" (.str "Solr Monitoring (Multi-Instance)"))
            "description" (.str "Solr performance monitoring dashboard with support for multiple instances. Use template variables to filter by instance, job, and core."))
          "version" = lookupField fs2 "version" := by
        rw [lookupField_setFields_ne _ _ _ _ (by decide),
            lookupField_setFields_ne _ _ _ _ (by decide),
            lookupField_setFields_ne _ _ _ _ (by decide)]
      simp only [pyGetD, lv, hv2] at ht
      cases ht
      exact lookupField_setFields_self _ "version" _
  | some w =>
      cases w with
      | null => simp only [hpan] at ht; cases ht
      | bool b => simp only [hpan] at ht; cases ht
      | num n => simp only [hpan] at ht; cases ht
      | str s => simp only [hpan] at ht; cases ht
      | obj fs3 => simp only [hpan] at ht; cases ht
      | arr l =>
          simp only [hpan] at ht
          cases hmap : l.mapM update_panel with
          | error e => simp only [hmap] at ht; cases ht
          | ok upd =>
              simp only [hmap, pySetItem] at ht
              have lv : lookupField
                  (setFields (setFields (setFields
                    (setFields fs2 "templating" templatingValue)
                    "panels" (.arr upd))
                    "title" (.str "Solr Monitoring (Multi-Instance)"))
                    "description" (.str "Solr performance monitoring dashboard with support for multiple instances. Use template variables to filter by instance, job, and core."))
                  "version" = lookupField fs2 "version" := by
                rw [lookupField_setFields_ne _ _ _ _ (by decide),
                    lookupField_setFields_ne _ _ _ _ (by decide),
                    lookupField_setFields_ne _ _ _ _ (by decide),
                    lookupField_setFields_ne _ _ _ _ (by decide)]
              simp only [pyGetD, lv, hv2] at ht
              cases ht
              exact lookupField_setFields_self _ "version" _

/-- Evaluation of the six panel appends on an object whose `panels` key
holds a list: the panels arrive in order at consecutive ids, and every
other key is untouched. -/
theorem appendSixPanels_eval (fs : List (String × Json)) (pl : List Json)
    (ni ny : Int) (hp : lookupField fs "panels" = some (.arr pl)) :
    ∃ gs, appendSixPanels (.obj fs) ni ny = .ok (.obj gs) ∧
      lookupField gs "panels" = some (.arr (pl ++
        [query_row_panel ni ny, panel_latency_json (ni + 1) (ny + 1),
         panel_slow_json (ni + 2) (ny + 1), panel_rate_json (ni + 3) (ny + 9),
         panel_cache_json (ni + 4) (ny + 9),
         panel_trend_json (ni + 5) (ny + 17)])) ∧
      (∀ k, k ≠ "panels" → lookupField gs k = lookupField fs k) := by
  have e1 := pyAppendKey_obj fs "panels" (query_row_panel ni ny) pl hp
  have e2 := pyAppendKey_obj (setFields fs "panels" (.arr (pl ++ [query_row_panel ni ny]))) "panels"
    (panel_latency_json (ni + 1) (ny + 1)) (pl ++ [query_row_panel ni ny])
    (lookupField_setFields_self fs "panels" (.arr (pl ++ [query_row_panel ni ny])))
  have e3 := pyAppendKey_obj (setFields (setFields fs "panels" (.arr (pl ++ [query_row_panel ni ny]))) "panels" (.arr ((pl ++ [query_row_panel ni ny]) ++ [panel_latency_json (ni + 1) (ny + 1)]))) "panels"
    (panel_slow_json (ni + 2) (ny + 1)) ((pl ++ [query_row_panel ni ny]) ++ [panel_latency_json (ni + 1) (ny + 1)])
    (lookupField_setFields_self (setFields fs "panels" (.arr (pl ++ [query_row_panel ni ny]))) "panels" (.arr ((pl ++ [query_row_panel ni ny]) ++ [panel_latency_json (ni + 1) (ny + 1)])))
  have e4 := pyAppendKey_obj (setFields (setFields (setFields fs "panels" (.arr (pl ++ [query_row_panel ni ny]))) "panels" (.arr ((pl ++ [query_row_panel ni ny]) ++ [panel_latency_json (ni + 1) (ny + 1)]))) "panels" (.arr (((pl ++ [query_row_panel ni ny]) ++ [panel_latency_json (ni + 1) (ny + 1)]) ++ [panel_slow_json (ni + 2) (ny + 1)]))) "panels"
    (panel_rate_json (ni + 3) (ny + 9)) (((pl ++ [query_row_panel ni ny]) ++ [panel_latency_json (ni + 1) (ny + 1)]) ++ [panel_slow_json (ni + 2) (ny + 1)])
    (lookupField_setFields_self (setFields (setFields fs "panels" (.arr (pl ++ [query_row_panel ni ny]))) "panels" (.arr ((pl ++ [query_row_panel ni ny]) ++ [panel_latency_json (ni + 1) (ny + 1)]))) "panels" (.arr (((pl ++ [query_row_panel ni ny]) ++ [panel_latency_json (ni + 1) (ny + 1)]) ++ [panel_slow_json (ni + 2) (ny + 1)])))
  have e5 := pyAppendKey_obj (setFields (setFields (setFields (setFields fs "panels" (.arr (pl ++ [query_row_panel ni ny]))) "panels" (.arr ((pl ++ [query_row_panel ni ny]) ++ [panel_latency_json (ni + 1) (ny + 1)]))) "panels" (.arr (((pl ++ [query_row_panel ni ny]) ++ [panel_latency_json (ni + 1) (ny + 1)]) ++ [panel_slow_json (ni + 2) (ny + 1)]))) "panels" (.arr ((((pl ++ [query_row_panel ni ny]) ++ [panel_latency_json (ni + 1) (ny + 1)]) ++ [panel_slow_json (ni + 2) (ny + 1)]) ++ [panel_rate_json (ni + 3) (ny + 9)]))) "panels"
    (panel_cache_json (ni + 4) (ny + 9)) ((((pl ++ [query_row_panel ni ny]) ++ [panel_latency_json (ni + 1) (ny + 1)]) ++ [panel_slow_json (ni + 2) (ny + 1)]) ++ [panel_rate_json (ni + 3) (ny + 9)])
    (lookupField_setFields_self (setFields (setFields (setFields fs "panels" (.arr (pl ++ [query_row_panel ni ny]))) "panels" (.arr ((pl ++ [query_row_panel ni ny]) ++ [panel_latency_json (ni + 1) (ny + 1)]))) "panels" (.arr (((pl ++ [query_row_panel ni ny]) ++ [panel_latency_json (ni + 1) (ny + 1)]) ++ [panel_slow_json (ni + 2) (ny + 1)]))) "panels" (.arr ((((pl ++ [query_row_panel ni ny]) ++ [panel_latency_json (ni + 1) (ny + 1)]) ++ [panel_slow_json (ni + 2) (ny + 1)]) ++ [panel_rate_json (ni + 3) (ny + 9)])))
  have e6 := pyAppendKey_obj (setFields (setFields (setFields (setFields (setFields fs "panels" (.arr (pl ++ [query_row_panel ni ny]))) "panels" (.arr ((pl ++ [query_row_panel ni ny]) ++ [panel_latency_json (ni + 1) (ny + 1)]))) "panels" (.arr (((pl ++ [query_row_panel ni ny]) ++ [panel_latency_json (ni + 1) (ny + 1)]) ++ [panel_slow_json (ni + 2) (ny + 1)]))) "panels" (.arr ((((pl ++ [query_row_panel ni ny]) ++ [panel_latency_json (ni + 1) (ny + 1)]) ++ [panel_slow_json (ni + 2) (ny + 1)]) ++ [panel_rate_json (ni + 3) (ny + 9)]))) "panels" (.arr (((((pl ++ [query_row_panel ni ny]) ++ [panel_latency_json (ni + 1) (ny + 1)]) ++ [panel_slow_json (ni + 2) (ny + 1)]) ++ [panel_rate_json (ni + 3) (ny + 9)]) ++ [panel_cache_json (ni + 4) (ny + 9)]))) "panels"
    (panel_trend_json (ni + 5) (ny + 17)) (((((pl ++ [query_row_panel ni ny]) ++ [panel_latency_json (ni + 1) (ny + 1)]) ++ [panel_slow_json (ni + 2) (ny + 1)]) ++ [panel_rate_json (ni + 3) (ny + 9)]) ++ [panel_cache_json (ni + 4) (ny + 9)])
    (lookupField_setFields_self (setFields (setFields (setFields (setFields fs "panels" (.arr (pl ++ [query_row_panel ni ny]))) "panels" (.arr ((pl ++ [query_row_panel ni ny]) ++ [panel_latency_json (ni + 1) (ny + 1)]))) "panels" (.arr (((pl ++ [query_row_panel ni ny]) ++ [panel_latency_json (ni + 1) (ny + 1)]) ++ [panel_slow_json (ni + 2) (ny + 1)]))) "panels" (.arr ((((pl ++ [query_row_panel ni ny]) ++ [panel_latency_json (ni + 1) (ny + 1)]) ++ [panel_slow_json (ni + 2) (ny + 1)]) ++ [panel_rate_json (ni + 3) (ny + 9)]))) "panels" (.arr (((((pl ++ [query_row_panel ni ny]) ++ [panel_latency_json (ni + 1) (ny + 1)]) ++ [panel_slow_json (ni + 2) (ny + 1)]) ++ [panel_rate_json (ni + 3) (ny + 9)]) ++ [panel_cache_json (ni + 4) (ny + 9)])))
  refine ⟨setFields (setFields (setFields (setFields (setFields (setFields fs "panels" (.arr (pl ++ [query_row_panel ni ny]))) "panels" (.arr ((pl ++ [query_row_panel ni ny]) ++ [panel_latency_json (ni + 1) (ny + 1)]))) "panels" (.arr (((pl ++ [query_row_panel ni ny]) ++ [panel_latency_json (ni + 1) (ny + 1)]) ++ [panel_slow_json (ni + 2) (ny + 1)]))) "panels" (.arr ((((pl ++ [query_row_panel ni ny]) ++ [panel_latency_json (ni + 1) (ny + 1)]) ++ [panel_slow_json (ni + 2) (ny + 1)]) ++ [panel_rate_json (ni + 3) (ny + 9)]))) "panels" (.arr (((((pl ++ [query_row_panel ni ny]) ++ [panel_latency_json (ni + 1) (ny + 1)]) ++ [panel_slow_json (ni + 2) (ny + 1)]) ++ [panel_rate_json (ni + 3) (ny + 9)]) ++ [panel_cache_json (ni + 4) (ny + 9)]))) "panels" (.arr ((((((pl ++ [query_row_panel ni ny]) ++ [panel_latency_json (ni + 1) (ny + 1)]) ++ [panel_slow_json (ni + 2) (ny + 1)]) ++ [panel_rate_json (ni + 3) (ny + 9)]) ++ [panel_cache_json (ni + 4) (ny + 9)]) ++ [panel_trend_json (ni + 5) (ny + 17)])), ?_, ?_, ?_⟩
  · unfold appendSixPanels
    simp only [e1, e2, e3, e4, e5, e6]
  · rw [lookupField_setFields_self]
    congr 2
    simp [List.append_assoc]
  · intro k hk
    simp only [lookupField_setFields_ne _ _ _ _ hk]

/-- Evaluation of the final version bump and refresh update. -/
theorem bumpVersionRefresh_eval (gs : List (String × Json)) (n : Int)
    (hv : (lookupField gs "version").getD (.num 0) = .num n) :
    bumpVersionRefresh (.obj gs) =
      .ok (.obj (setFields (setFields gs "version" (.num (n + 1)))
        "refresh" (.str "30s"))) := by
  unfold bumpVersionRefresh
  simp only [pyGetD, hv, pySetItem]

/-- C8 (amended): the dashboard mutation scripts are appenders keyed by
incrementing numeric panel identifiers — the panel script appends its six
panels with ids starting one past the maximum existing id, bumps `version`
and sets `refresh`, and the templating script likewise bumps `version` on
every run — but they are not idempotent: each run appends and bumps again
(see the counterexample). -/
theorem C8_appender_amended (fs : List (String × Json)) (pl : List Json)
    (ids ys : List Int) (n : Int)
    (hp : lookupField fs "panels" = some (.arr pl))
    (hid : pl.mapM panelIdVal = .ok ids)
    (hy : pl.mapM panelYH = .ok ys)
    (hv : (lookupField fs "version").getD (.num 0) = .num n) :
    (∃ d, add_query_performance_panels (.obj fs) = .ok d ∧
      lookupOf d "panels" = some (.arr (pl ++
        [query_row_panel (pyMax ids 0 + 1) (pyMax ys 0),
         panel_latency_json (pyMax ids 0 + 2) (pyMax ys 0 + 1),
         panel_slow_json (pyMax ids 0 + 3) (pyMax ys 0 + 1),
         panel_rate_json (pyMax ids 0 + 4) (pyMax ys 0 + 9),
         panel_cache_json (pyMax ids 0 + 5) (pyMax ys 0 + 9),
         panel_trend_json (pyMax ids 0 + 6) (pyMax ys 0 + 17)])) ∧
      lookupOf d "version" = some (.num (n + 1)) ∧
      lookupOf d "refresh" = some (.str "30s")) ∧
    panelIdVal (query_row_panel (pyMax ids 0 + 1) (pyMax ys 0)) =
      .ok (pyMax ids 0 + 1) ∧
    (∀ fs2 m d2, templating_module (.obj fs2) = .ok d2 →
      (lookupField fs2 "version").getD (.num 0) = .num m →
      lookupOf d2 "version" = some (.num (m + 1))) := by
  obtain ⟨gs, hsix, hpan6, hother⟩ :=
    appendSixPanels_eval fs pl (pyMax ids 0 + 1) (pyMax ys 0) hp
  have hvgs : (lookupField gs "version").getD (.num 0) = .num n := by
    rw [hother "version" (by decide), hv]
  have hbump := bumpVersionRefresh_eval gs n hvgs
  have hmain : add_query_performance_panels (.obj fs) =
      .ok (.obj (setFields (setFields gs "version" (.num (n + 1)))
        "refresh" (.str "30s"))) := by
    unfold add_query_performance_panels
    simp only [pyGetD, hp, Option.getD_some, hid, hy, hsix, hbump]
  refine ⟨⟨_, hmain, ?_, ?_, ?_⟩, rfl, fun fs2 m d2 ht hv2 =>
    templating_module_version fs2 m d2 ht hv2⟩
  · show lookupField (setFields (setFields gs "version" (.num (n + 1)))
      "refresh" (.str "30s")) "panels" = _
    rw [lookupField_setFields_ne _ _ _ _ (by decide),
        lookupField_setFields_ne _ _ _ _ (by decide), hpan6,
        (by omega : pyMax ids 0 + 1 + 1 = pyMax ids 0 + 2),
        (by omega : pyMax ids 0 + 1 + 2 = pyMax ids 0 + 3),
        (by omega : pyMax ids 0 + 1 + 3 = pyMax ids 0 + 4),
        (by omega : pyMax ids 0 + 1 + 4 = pyMax ids 0 + 5),
        (by omega : pyMax ids 0 + 1 + 5 = pyMax ids 0 + 6)]
  · show lookupField (setFields (setFields gs "version" (.num (n + 1)))
      "refresh" (.str "30s")) "version" = _
    rw [lookupField_setFields_ne _ _ _ _ (by decide)]
    exact lookupField_setFields_self _ "version" _
  · exact lookupField_setFields_self _ "refresh" _

/-- Witness for the amended C8 on the dashboard `{"panels": []}`. -/
theorem C8_appender_amended_witness :
    ∃ d, add_query_performance_panels (.obj [("panels", .arr [])]) = .ok d ∧
      lookupOf d "panels" = some (.arr
        [query_row_panel 1 0, panel_latency_json 2 1, panel_slow_json 3 1,
         panel_rate_json 4 9, panel_cache_json 5 9,
         panel_trend_json 6 17]) ∧
      lookupOf d "version" = some (.num 1) ∧
      lookupOf d "refresh" = some (.str "30s") :=
  (C8_appender_amended [("panels", .arr [])] [] [] [] 0
    rfl rfl rfl rfl).1

/-- C8 counterexample: running the panel script a second time on its own
output appends six further panels and bumps `version` again, so the result
differs from a single run — the script is not idempotent. -/
theorem C8_idempotent_counterexample :
    (match add_query_performance_panels (.obj [("panels", .arr [])]) with
     | .ok d => add_query_performance_panels d
     | .error e => .error e) ≠
      add_query_performance_panels (.obj [("panels", .arr [])]) := by
  intro h
  have h2 := congrArg panelsCount h
  have ea : panelsCount
      (match add_query_performance_panels (.obj [("panels", .arr [])]) with
       | .ok d => add_query_performance_panels d
       | .error e => .error e) = 12 := rfl
  have eb : panelsCount
      (add_query_performance_panels (.obj [("panels", .arr [])])) = 6 := rfl
  rw [ea, eb] at h2
  exact absurd h2 (by decide)
